import Mathlib

/-!
Verification of the awtools universe service core against its specification.

The development shallowly embeds the Rust sources:
  - aw_core/src/net/packet.rs          (packet codec, typed accessors)
  - universe/src/packet_handler/user_handler.rs  (login, user list, citizen queries)
  - universe/src/system/heartbeat.rs   (heartbeat ticker)
  - universe/src/system/purge.rs       (dead-client purge sweep)

Bytes are modelled as `Nat` values below 256; multi-byte integers are
big-endian as on the wire.  Machine integers are `Nat`/`Int` with explicit
bounds or `%` where overflow matters.  Components of the repository that are
not among the analysed sources (the var codec `packet_var.rs`, the client
manager, the database collaborator) are modelled from the specification and
carry a doc comment saying so.
-/

set_option maxHeartbeats 1000000

namespace AW

/-! ## Byte-level primitives -/

/-- Big-endian encoding of a 16-bit value (`as u16` truncation is inherent). -/
def u16BE (n : Nat) : List Nat := [n / 256 % 256, n % 256]

/-- Big-endian encoding of a 32-bit value. -/
def u32BE (n : Nat) : List Nat :=
  [n / 16777216 % 256, n / 65536 % 256, n / 256 % 256, n % 256]

def readU8 : List Nat → Option (Nat × List Nat)
  | [] => none
  | b :: rest => some (b, rest)

def readU16 : List Nat → Option (Nat × List Nat)
  | b0 :: b1 :: rest => some (b0 * 256 + b1, rest)
  | _ => none

def readU32 : List Nat → Option (Nat × List Nat)
  | b0 :: b1 :: b2 :: b3 :: rest =>
      some (((b0 * 256 + b1) * 256 + b2) * 256 + b3, rest)
  | _ => none

def readBytes (n : Nat) (l : List Nat) : Option (List Nat × List Nat) :=
  if l.length < n then none else some (l.take n, l.drop n)

/-- Two's-complement 32-bit encoding of an `i32` value. -/
def i32enc (x : Int) : List Nat := u32BE (x.emod 4294967296).toNat

/-- Reinterpret an unsigned 32-bit value as an `i32`. -/
def i32ofU32 (u : Nat) : Int :=
  if u < 2147483648 then (u : Int) else (u : Int) - 4294967296

/-- Reinterpret an unsigned 16-bit value as an `i16`. -/
def i16ofU16 (v : Nat) : Int :=
  if v < 32768 then (v : Int) else (v : Int) - 65536

theorem readU16_u16BE (n : Nat) (rest : List Nat) :
    readU16 (u16BE n ++ rest) = some (n % 65536, rest) := by
  simp only [u16BE, readU16, List.cons_append, List.nil_append]
  congr 1
  congr 1
  omega

theorem readU32_u32BE (n : Nat) (rest : List Nat) :
    readU32 (u32BE n ++ rest) = some (n % 4294967296, rest) := by
  simp only [u32BE, readU32, List.cons_append, List.nil_append]
  congr 1
  congr 1
  omega

theorem readBytes_append (s rest : List Nat) :
    readBytes s.length (s ++ rest) = some (s, rest) := by
  simp [readBytes, List.take_left, List.drop_left]

theorem i32ofU32_i32enc (x : Int) (h1 : -2147483648 ≤ x) (h2 : x < 2147483648) :
    i32ofU32 ((x.emod 4294967296).toNat % 4294967296) = x := by
  have hmod : x.emod 4294967296 = if 0 ≤ x then x else x + 4294967296 := by
    rcases le_or_lt 0 x with hx | hx
    · simp only [if_pos hx]
      exact Int.emod_eq_of_lt hx (by omega)
    · simp only [if_neg (not_le.mpr hx)]
      have hshift : (x + 4294967296 * 1).emod 4294967296 = x.emod 4294967296 :=
        Int.add_mul_emod_self_left x 4294967296 1
      have : (x + 4294967296 * 1).emod 4294967296 = x + 4294967296 * 1 :=
        Int.emod_eq_of_lt (by omega) (by omega)
      omega
  rcases le_or_lt 0 x with hx | hx
  · rw [hmod, if_pos hx]
    have : x.toNat % 4294967296 = x.toNat := Nat.mod_eq_of_lt (by omega)
    rw [this]
    simp only [i32ofU32]
    rw [if_pos (by omega)]
    omega
  · rw [hmod, if_neg (not_le.mpr hx)]
    have : (x + 4294967296).toNat % 4294967296 = (x + 4294967296).toNat :=
      Nat.mod_eq_of_lt (by omega)
    rw [this]
    simp only [i32ofU32]
    rw [if_neg (by omega)]
    omega

/-! ## Var codec -/

/-- Modelled from the spec: one tagged field of a packet — the var codec
(`packet_var.rs`) is not among the analysed sources, only its callers in
`packet.rs` and `user_handler.rs` are.  Per spec §3/§4.1 the kinds are
Byte u8, Int i32, Uint u32, Float f32, String and Data; var ids are raw u16
codes (unknown ids survive as-is); strings and blobs are byte lists; a Float
payload is kept as its 32-bit pattern, which the codec moves bit-exactly and
never interprets. -/
inductive AWPacketVar
  | byte (id : Nat) (x : Nat)
  | int (id : Nat) (x : Int)
  | uint (id : Nat) (x : Nat)
  | float (id : Nat) (bits : Nat)
  | str (id : Nat) (s : List Nat)
  | data (id : Nat) (d : List Nat)
deriving DecidableEq, Repr

def AWPacketVar.get_var_id : AWPacketVar → Nat
  | .byte id _ => id
  | .int id _ => id
  | .uint id _ => id
  | .float id _ => id
  | .str id _ => id
  | .data id _ => id

/-- Modelled from the spec: the wire type tags — §4.1 fixes the layout
`var_id u16 BE | type_tag u8 | payload` but not the tag values; distinct
constants are used, only their distinctness matters. -/
def tagByte : Nat := 1

def tagInt : Nat := 2

def tagUint : Nat := 3

def tagFloat : Nat := 4

def tagString : Nat := 5

def tagData : Nat := 6

/-- Modelled from the spec: `serialize_len` of the missing var codec (§4.1),
a pure function of the type and, for
variable types, the payload length (2-byte id + 1-byte tag + payload,
strings and blobs with a 2-byte length prefix). -/
def AWPacketVar.serialize_len : AWPacketVar → Nat
  | .byte _ _ => 4
  | .int _ _ => 7
  | .uint _ _ => 7
  | .float _ _ => 7
  | .str _ s => 5 + s.length
  | .data _ d => 5 + d.length

/-- Encode one var to its wire bytes (spec §4.1 layout). -/
def AWPacketVar.serialize : AWPacketVar → List Nat
  | .byte id x => u16BE id ++ [tagByte, x]
  | .int id x => u16BE id ++ tagInt :: i32enc x
  | .uint id x => u16BE id ++ tagUint :: u32BE x
  | .float id bits => u16BE id ++ tagFloat :: u32BE bits
  | .str id s => u16BE id ++ tagString :: (u16BE s.length ++ s)
  | .data id d => u16BE id ++ tagData :: (u16BE d.length ++ d)

/-- Decode one var from the front of a byte list, returning it and the number
of bytes consumed.  Failure modes per spec §4.1: `ShortRead` when fewer than
the declared bytes remain, `UnknownType` for an unrecognised tag. -/
def AWPacketVar.deserialize (l : List Nat) : Except String (AWPacketVar × Nat) :=
  match readU16 l with
  | none => .error "ShortRead"
  | some (id, r1) =>
    match readU8 r1 with
    | none => .error "ShortRead"
    | some (tag, r2) =>
      if tag = tagByte then
        match readU8 r2 with
        | none => .error "ShortRead"
        | some (x, _) => .ok (.byte id x, 4)
      else if tag = tagInt then
        match readU32 r2 with
        | none => .error "ShortRead"
        | some (u, _) => .ok (.int id (i32ofU32 u), 7)
      else if tag = tagUint then
        match readU32 r2 with
        | none => .error "ShortRead"
        | some (u, _) => .ok (.uint id u, 7)
      else if tag = tagFloat then
        match readU32 r2 with
        | none => .error "ShortRead"
        | some (u, _) => .ok (.float id u, 7)
      else if tag = tagString then
        match readU16 r2 with
        | none => .error "ShortRead"
        | some (len, r3) =>
          match readBytes len r3 with
          | none => .error "ShortRead"
          | some (s, _) => .ok (.str id s, 5 + len)
      else if tag = tagData then
        match readU16 r2 with
        | none => .error "ShortRead"
        | some (len, r3) =>
          match readBytes len r3 with
          | none => .error "ShortRead"
          | some (d, _) => .ok (.data id d, 5 + len)
      else .error "UnknownType"

/-- Well-formedness mirroring the Rust types: var ids are u16, byte payloads
are u8, Int payloads are i32, Uint/Float payloads 32-bit, string and blob
payloads are u8 lists short enough for their u16 length prefix. -/
def AWPacketVar.wf : AWPacketVar → Prop
  | .byte id x => id < 65536 ∧ x < 256
  | .int id x => id < 65536 ∧ -2147483648 ≤ x ∧ x < 2147483648
  | .uint id x => id < 65536 ∧ x < 4294967296
  | .float id bits => id < 65536 ∧ bits < 4294967296
  | .str id s => id < 65536 ∧ s.length < 65536 ∧ ∀ b ∈ s, b < 256
  | .data id d => id < 65536 ∧ d.length < 65536 ∧ ∀ b ∈ d, b < 256

instance (v : AWPacketVar) : Decidable v.wf := by
  cases v <;> simp only [AWPacketVar.wf] <;> infer_instance

theorem var_serialize_length (v : AWPacketVar) :
    v.serialize.length = v.serialize_len := by
  cases v <;> simp [AWPacketVar.serialize, AWPacketVar.serialize_len, u16BE, u32BE, i32enc, tagByte] <;> omega

theorem var_deserialize_serialize (v : AWPacketVar) (rest : List Nat)
    (h : v.wf) :
    AWPacketVar.deserialize (v.serialize ++ rest) = .ok (v, v.serialize_len) := by
  cases v with
  | byte id x =>
    obtain ⟨hid, hx⟩ := h
    simp [AWPacketVar.serialize, AWPacketVar.deserialize, AWPacketVar.serialize_len, readU16_u16BE, readU8,
      Nat.mod_eq_of_lt hid, tagByte, tagInt, tagUint, tagFloat, tagString, tagData]
  | int id x =>
    obtain ⟨hid, hx1, hx2⟩ := h
    simp [AWPacketVar.serialize, AWPacketVar.deserialize, AWPacketVar.serialize_len, readU16_u16BE, readU8,
      readU32_u32BE, Nat.mod_eq_of_lt hid, i32enc, i32ofU32_i32enc x hx1 hx2,
      tagByte, tagInt, tagUint, tagFloat, tagString, tagData]
  | uint id x =>
    obtain ⟨hid, hx⟩ := h
    simp [AWPacketVar.serialize, AWPacketVar.deserialize, AWPacketVar.serialize_len, readU16_u16BE, readU8,
      readU32_u32BE, Nat.mod_eq_of_lt hid, Nat.mod_eq_of_lt hx,
      tagByte, tagInt, tagUint, tagFloat, tagString, tagData]
  | float id bits =>
    obtain ⟨hid, hx⟩ := h
    simp [AWPacketVar.serialize, AWPacketVar.deserialize, AWPacketVar.serialize_len, readU16_u16BE, readU8,
      readU32_u32BE, Nat.mod_eq_of_lt hid, Nat.mod_eq_of_lt hx,
      tagByte, tagInt, tagUint, tagFloat, tagString, tagData]
  | str id s =>
    obtain ⟨hid, hlen, _⟩ := h
    simp [AWPacketVar.serialize, AWPacketVar.deserialize, AWPacketVar.serialize_len, readU16_u16BE, readU8,
      Nat.mod_eq_of_lt hid, Nat.mod_eq_of_lt hlen, readBytes_append,
      tagByte, tagInt, tagUint, tagFloat, tagString, tagData]
  | data id d =>
    obtain ⟨hid, hlen, _⟩ := h
    simp [AWPacketVar.serialize, AWPacketVar.deserialize, AWPacketVar.serialize_len, readU16_u16BE, readU8,
      Nat.mod_eq_of_lt hid, Nat.mod_eq_of_lt hlen, readBytes_append,
      tagByte, tagInt, tagUint, tagFloat, tagString, tagData]

/-! ## Packet codec (aw_core/src/net/packet.rs) -/

/-- Packet opcodes: one constructor per variant of the source `PacketType` enum. -/
inductive PacketType
  | PublicKeyResponse
  | StreamKeyResponse
  | Address
  | Attributes
  | AttributeChange
  | AttributesReset
  | AvatarAdd
  | AvatarChange
  | AvatarClick
  | AvatarDelete
  | Invite
  | BotgramResponse
  | Capabilities
  | CellBegin
  | CellEnd
  | CellNext
  | CellUpdate
  | CitizenAdd
  | CitizenInfo
  | CitizenLookupByName
  | CitizenLookupByNumber
  | CitizenChange
  | CitizenDelete
  | CitizenNext
  | CitizenPrev
  | CitizenChangeResult
  | ConsoleMessage
  | ContactAdd
  | ContactChange
  | ContactDelete
  | ContactList
  | Enter
  | PublicKeyRequest
  | Heartbeat
  | Identify
  | LicenseAdd
  | LicenseResult
  | LicenseByName
  | LicenseChange
  | LicenseDelete
  | LicenseNext
  | LicensePrev
  | LicenseChangeResult
  | Login
  | Message
  | ObjectAdd
  | ObjectClick
  | ObjectDelete
  | ObjectDeleteAll
  | ObjectResult
  | ObjectSelect
  | QueryNeedMore
  | QueryUpToDate
  | RegistryReload
  | ServerLogin
  | WorldServerStart
  | ServerWorldDelete
  | ServerWorldList
  | ServerWorldListResult
  | ServerWorldResult
  | TelegramDeliver
  | TelegramGet
  | TelegramNotify
  | TelegramSend
  | Teleport
  | TerrainBegin
  | TerrainChanged
  | TerrainData
  | TerrainDelete
  | TerrainEnd
  | TerrainLoad
  | TerrainNext
  | TerrainSet
  | ToolbarClick
  | URL
  | URLClick
  | UserList
  | UserListResult
  | LoginApplication
  | WorldList
  | WorldListResult
  | WorldLookup
  | WorldStart
  | WorldStop
  | Tunnel
  | WorldStatsUpdate
  | Join
  | JoinReply
  | Xfer
  | XferReply
  | Noise
  | Camera
  | Botmenu
  | BotmenuResult
  | WorldEject
  | EjectAdd
  | EjectDelete
  | EjectLookup
  | EjectNext
  | EjectPrev
  | WorldEjectResult
  | WorldConnectionResult
  | ObjectBump
  | PasswordSend
  | CavTemplateByNumber
  | CavTemplateNext
  | CavTemplateChange
  | CavTemplateDelete
  | WorldCAVDefinitionChange
  | WorldCAV
  | CavDelete
  | WorldCAVResult
  | MoverAdd
  | MoverDelete
  | MoverChange
  | MoverRiderAdd
  | MoverRiderDelete
  | MoverRiderChange
  | MoverLinks
  | SetAFK
  | Immigrate
  | Register
  | AvatarReload
  | WorldInstanceSet
  | WorldInstanceGet
  | ContactConfirm
  | HudCreate
  | HudClick
  | HudDestroy
  | HudClear
  | HudResult
  | AvatarLocation
  | ObjectQuery
  | LaserBeam
  | Unknown

/-- The numeric discriminant of each opcode, as in the source enum. -/
def PacketType.opcodeVal : PacketType → Nat
  | .PublicKeyResponse => 1
  | .StreamKeyResponse => 2
  | .Address => 5
  | .Attributes => 6
  | .AttributeChange => 7
  | .AttributesReset => 8
  | .AvatarAdd => 9
  | .AvatarChange => 10
  | .AvatarClick => 11
  | .AvatarDelete => 12
  | .Invite => 14
  | .BotgramResponse => 15
  | .Capabilities => 16
  | .CellBegin => 17
  | .CellEnd => 18
  | .CellNext => 19
  | .CellUpdate => 20
  | .CitizenAdd => 21
  | .CitizenInfo => 22
  | .CitizenLookupByName => 23
  | .CitizenLookupByNumber => 24
  | .CitizenChange => 25
  | .CitizenDelete => 26
  | .CitizenNext => 27
  | .CitizenPrev => 28
  | .CitizenChangeResult => 29
  | .ConsoleMessage => 30
  | .ContactAdd => 31
  | .ContactChange => 32
  | .ContactDelete => 33
  | .ContactList => 34
  | .Enter => 35
  | .PublicKeyRequest => 36
  | .Heartbeat => 37
  | .Identify => 38
  | .LicenseAdd => 39
  | .LicenseResult => 40
  | .LicenseByName => 41
  | .LicenseChange => 42
  | .LicenseDelete => 43
  | .LicenseNext => 44
  | .LicensePrev => 45
  | .LicenseChangeResult => 46
  | .Login => 47
  | .Message => 48
  | .ObjectAdd => 49
  | .ObjectClick => 51
  | .ObjectDelete => 52
  | .ObjectDeleteAll => 53
  | .ObjectResult => 55
  | .ObjectSelect => 56
  | .QueryNeedMore => 59
  | .QueryUpToDate => 60
  | .RegistryReload => 61
  | .ServerLogin => 62
  | .WorldServerStart => 63
  | .ServerWorldDelete => 67
  | .ServerWorldList => 68
  | .ServerWorldListResult => 69
  | .ServerWorldResult => 70
  | .TelegramDeliver => 75
  | .TelegramGet => 76
  | .TelegramNotify => 77
  | .TelegramSend => 78
  | .Teleport => 79
  | .TerrainBegin => 80
  | .TerrainChanged => 81
  | .TerrainData => 82
  | .TerrainDelete => 83
  | .TerrainEnd => 84
  | .TerrainLoad => 85
  | .TerrainNext => 86
  | .TerrainSet => 88
  | .ToolbarClick => 89
  | .URL => 90
  | .URLClick => 91
  | .UserList => 92
  | .UserListResult => 93
  | .LoginApplication => 94
  | .WorldList => 96
  | .WorldListResult => 97
  | .WorldLookup => 98
  | .WorldStart => 99
  | .WorldStop => 100
  | .Tunnel => 101
  | .WorldStatsUpdate => 102
  | .Join => 103
  | .JoinReply => 104
  | .Xfer => 105
  | .XferReply => 106
  | .Noise => 107
  | .Camera => 109
  | .Botmenu => 110
  | .BotmenuResult => 111
  | .WorldEject => 112
  | .EjectAdd => 113
  | .EjectDelete => 114
  | .EjectLookup => 115
  | .EjectNext => 116
  | .EjectPrev => 117
  | .WorldEjectResult => 118
  | .WorldConnectionResult => 119
  | .ObjectBump => 120
  | .PasswordSend => 121
  | .CavTemplateByNumber => 123
  | .CavTemplateNext => 124
  | .CavTemplateChange => 125
  | .CavTemplateDelete => 126
  | .WorldCAVDefinitionChange => 127
  | .WorldCAV => 128
  | .CavDelete => 130
  | .WorldCAVResult => 131
  | .MoverAdd => 144
  | .MoverDelete => 145
  | .MoverChange => 146
  | .MoverRiderAdd => 148
  | .MoverRiderDelete => 149
  | .MoverRiderChange => 150
  | .MoverLinks => 151
  | .SetAFK => 152
  | .Immigrate => 155
  | .Register => 157
  | .AvatarReload => 159
  | .WorldInstanceSet => 160
  | .WorldInstanceGet => 161
  | .ContactConfirm => 163
  | .HudCreate => 164
  | .HudClick => 165
  | .HudDestroy => 166
  | .HudClear => 167
  | .HudResult => 168
  | .AvatarLocation => 169
  | .ObjectQuery => 170
  | .LaserBeam => 183
  | .Unknown => 32767

/-- The `num_traits::FromPrimitive` mapping for the opcode enum: the variant whose
discriminant equals the given value, if any. -/
def PacketType.from_i16 : Int → Option PacketType
  | 1 => some .PublicKeyResponse
  | 2 => some .StreamKeyResponse
  | 5 => some .Address
  | 6 => some .Attributes
  | 7 => some .AttributeChange
  | 8 => some .AttributesReset
  | 9 => some .AvatarAdd
  | 10 => some .AvatarChange
  | 11 => some .AvatarClick
  | 12 => some .AvatarDelete
  | 14 => some .Invite
  | 15 => some .BotgramResponse
  | 16 => some .Capabilities
  | 17 => some .CellBegin
  | 18 => some .CellEnd
  | 19 => some .CellNext
  | 20 => some .CellUpdate
  | 21 => some .CitizenAdd
  | 22 => some .CitizenInfo
  | 23 => some .CitizenLookupByName
  | 24 => some .CitizenLookupByNumber
  | 25 => some .CitizenChange
  | 26 => some .CitizenDelete
  | 27 => some .CitizenNext
  | 28 => some .CitizenPrev
  | 29 => some .CitizenChangeResult
  | 30 => some .ConsoleMessage
  | 31 => some .ContactAdd
  | 32 => some .ContactChange
  | 33 => some .ContactDelete
  | 34 => some .ContactList
  | 35 => some .Enter
  | 36 => some .PublicKeyRequest
  | 37 => some .Heartbeat
  | 38 => some .Identify
  | 39 => some .LicenseAdd
  | 40 => some .LicenseResult
  | 41 => some .LicenseByName
  | 42 => some .LicenseChange
  | 43 => some .LicenseDelete
  | 44 => some .LicenseNext
  | 45 => some .LicensePrev
  | 46 => some .LicenseChangeResult
  | 47 => some .Login
  | 48 => some .Message
  | 49 => some .ObjectAdd
  | 51 => some .ObjectClick
  | 52 => some .ObjectDelete
  | 53 => some .ObjectDeleteAll
  | 55 => some .ObjectResult
  | 56 => some .ObjectSelect
  | 59 => some .QueryNeedMore
  | 60 => some .QueryUpToDate
  | 61 => some .RegistryReload
  | 62 => some .ServerLogin
  | 63 => some .WorldServerStart
  | 67 => some .ServerWorldDelete
  | 68 => some .ServerWorldList
  | 69 => some .ServerWorldListResult
  | 70 => some .ServerWorldResult
  | 75 => some .TelegramDeliver
  | 76 => some .TelegramGet
  | 77 => some .TelegramNotify
  | 78 => some .TelegramSend
  | 79 => some .Teleport
  | 80 => some .TerrainBegin
  | 81 => some .TerrainChanged
  | 82 => some .TerrainData
  | 83 => some .TerrainDelete
  | 84 => some .TerrainEnd
  | 85 => some .TerrainLoad
  | 86 => some .TerrainNext
  | 88 => some .TerrainSet
  | 89 => some .ToolbarClick
  | 90 => some .URL
  | 91 => some .URLClick
  | 92 => some .UserList
  | 93 => some .UserListResult
  | 94 => some .LoginApplication
  | 96 => some .WorldList
  | 97 => some .WorldListResult
  | 98 => some .WorldLookup
  | 99 => some .WorldStart
  | 100 => some .WorldStop
  | 101 => some .Tunnel
  | 102 => some .WorldStatsUpdate
  | 103 => some .Join
  | 104 => some .JoinReply
  | 105 => some .Xfer
  | 106 => some .XferReply
  | 107 => some .Noise
  | 109 => some .Camera
  | 110 => some .Botmenu
  | 111 => some .BotmenuResult
  | 112 => some .WorldEject
  | 113 => some .EjectAdd
  | 114 => some .EjectDelete
  | 115 => some .EjectLookup
  | 116 => some .EjectNext
  | 117 => some .EjectPrev
  | 118 => some .WorldEjectResult
  | 119 => some .WorldConnectionResult
  | 120 => some .ObjectBump
  | 121 => some .PasswordSend
  | 123 => some .CavTemplateByNumber
  | 124 => some .CavTemplateNext
  | 125 => some .CavTemplateChange
  | 126 => some .CavTemplateDelete
  | 127 => some .WorldCAVDefinitionChange
  | 128 => some .WorldCAV
  | 130 => some .CavDelete
  | 131 => some .WorldCAVResult
  | 144 => some .MoverAdd
  | 145 => some .MoverDelete
  | 146 => some .MoverChange
  | 148 => some .MoverRiderAdd
  | 149 => some .MoverRiderDelete
  | 150 => some .MoverRiderChange
  | 151 => some .MoverLinks
  | 152 => some .SetAFK
  | 155 => some .Immigrate
  | 157 => some .Register
  | 159 => some .AvatarReload
  | 160 => some .WorldInstanceSet
  | 161 => some .WorldInstanceGet
  | 163 => some .ContactConfirm
  | 164 => some .HudCreate
  | 165 => some .HudClick
  | 166 => some .HudDestroy
  | 167 => some .HudClear
  | 168 => some .HudResult
  | 169 => some .AvatarLocation
  | 170 => some .ObjectQuery
  | 183 => some .LaserBeam
  | 32767 => some .Unknown
  | _ => none

theorem PacketType.from_i16_opcodeVal (pc : PacketType) :
    PacketType.from_i16 (pc.opcodeVal : Int) = some pc := by
  cases pc <;> rfl

/-- A packet: ordered vars, opcode, and the two pass-through header fields,
as in `struct AWPacket` of packet.rs. -/
structure AWPacket where
  vars : List AWPacketVar
  opcode : PacketType
  header_0 : Nat
  header_1 : Nat

/-- Mirrors `AWPacket::new`: empty var list, zero headers. -/
def AWPacket.new (opcode : PacketType) : AWPacket :=
  { vars := [], opcode := opcode, header_0 := 0, header_1 := 0 }

/-- Mirrors `AWPacket::add_var`: append to the var list. -/
def AWPacket.add_var (p : AWPacket) (var : AWPacketVar) : AWPacket :=
  { p with vars := p.vars ++ [var] }

def AWPacket.get_var (p : AWPacket) (var_id : Nat) : Option AWPacketVar :=
  p.vars.find? (fun var => var.get_var_id == var_id)

def getByteAux (var_id : Nat) : List AWPacketVar → Option Nat
  | [] => none
  | AWPacketVar.byte id x :: rest =>
      if id = var_id then some x else getByteAux var_id rest
  | _ :: rest => getByteAux var_id rest

/-- Mirrors `AWPacket::get_byte`: first Byte var with the id. -/
def AWPacket.get_byte (p : AWPacket) (var_id : Nat) : Option Nat :=
  getByteAux var_id p.vars

def getIntAux (var_id : Nat) : List AWPacketVar → Option Int
  | [] => none
  | AWPacketVar.int id x :: rest =>
      if id = var_id then some x else getIntAux var_id rest
  | _ :: rest => getIntAux var_id rest

/-- Mirrors `AWPacket::get_int`: first Int var with the id. -/
def AWPacket.get_int (p : AWPacket) (var_id : Nat) : Option Int :=
  getIntAux var_id p.vars

def getUintAux (var_id : Nat) : List AWPacketVar → Option Nat
  | [] => none
  | AWPacketVar.uint id x :: rest =>
      if id = var_id then some x else getUintAux var_id rest
  | _ :: rest => getUintAux var_id rest

/-- Modelled from the spec: `AWPacket::get_uint` — the accessor is called
throughout `user_handler.rs` and listed in spec §4.2, but its body is not in
the analysed slice of packet.rs; it follows the same first-match loop as the
other accessors. -/
def AWPacket.get_uint (p : AWPacket) (var_id : Nat) : Option Nat :=
  getUintAux var_id p.vars

def getFloatAux (var_id : Nat) : List AWPacketVar → Option Nat
  | [] => none
  | AWPacketVar.float id x :: rest =>
      if id = var_id then some x else getFloatAux var_id rest
  | _ :: rest => getFloatAux var_id rest

/-- Mirrors `AWPacket::get_float` (payload kept as its bit pattern). -/
def AWPacket.get_float (p : AWPacket) (var_id : Nat) : Option Nat :=
  getFloatAux var_id p.vars

def getStringAux (var_id : Nat) : List AWPacketVar → Option (List Nat)
  | [] => none
  | AWPacketVar.str id x :: rest =>
      if id = var_id then some x else getStringAux var_id rest
  | _ :: rest => getStringAux var_id rest

/-- Mirrors `AWPacket::get_string`: first String var with the id. -/
def AWPacket.get_string (p : AWPacket) (var_id : Nat) : Option (List Nat) :=
  getStringAux var_id p.vars

def getDataAux (var_id : Nat) : List AWPacketVar → Option (List Nat)
  | [] => none
  | AWPacketVar.data id x :: rest =>
      if id = var_id then some x else getDataAux var_id rest
  | _ :: rest => getDataAux var_id rest

/-- Mirrors `AWPacket::get_data`: first Data var with the id. -/
def AWPacket.get_data (p : AWPacket) (var_id : Nat) : Option (List Nat) :=
  getDataAux var_id p.vars

def AWPacket.get_vars (p : AWPacket) : List AWPacketVar := p.vars

def serializeVars : List AWPacketVar → List Nat
  | [] => []
  | v :: rest => v.serialize ++ serializeVars rest

def varsLen (vs : List AWPacketVar) : Nat :=
  (vs.map AWPacketVar.serialize_len).sum

/-- Mirrors `AWPacket::serialize_len`: 10-byte header plus every var's length. -/
def AWPacket.serialize_len (p : AWPacket) : Nat :=
  10 + varsLen p.vars

/-- Mirrors `AWPacket::serialize`: `TooLarge` guard, then the 10-byte header
`serialized_length | header_0 | opcode | header_1 | var_count` (all u16 BE;
the opcode is written `as i16`, identical bytes for the non-negative
discriminants) followed by the vars in order. -/
def AWPacket.serialize (p : AWPacket) : Except String (List Nat) :=
  let len := p.serialize_len
  if len > 65535 then .error "Serializing packet too large"
  else .ok (u16BE len ++ u16BE p.header_0 ++ u16BE p.opcode.opcodeVal ++
    u16BE p.header_1 ++ u16BE p.vars.length ++ serializeVars p.vars)

/-- The var-reading loop of `AWPacket::deserialize`: `var_count` vars off the
front, tracking consumed bytes. -/
def deserializeVars : Nat → List Nat → Except String (List AWPacketVar × Nat)
  | 0, _ => .ok ([], 0)
  | n + 1, l =>
    match AWPacketVar.deserialize l with
    | .error e => .error e
    | .ok (v, c) =>
      match deserializeVars n (l.drop c) with
      | .error e => .error e
      | .ok (vs, c2) => .ok (v :: vs, c + c2)

/-- Mirrors `AWPacket::deserialize`: read the 10-byte header (the source asserts at
least 10 bytes are present; shorter input is a failure either way), read
`var_count` vars, verify the consumed count equals `serialized_length`, and
map unknown opcodes to the `Unknown` sentinel. -/
def AWPacket.deserialize (l : List Nat) : Except String (AWPacket × Nat) :=
  match readU16 l with
  | none => .error "Could not read serialized_length"
  | some (slen, r1) =>
  match readU16 r1 with
  | none => .error "Could not read header_0"
  | some (h0, r2) =>
  match readU16 r2 with
  | none => .error "Could not read opcode"
  | some (opv, r3) =>
  match readU16 r3 with
  | none => .error "Could not read header_1"
  | some (h1, r4) =>
  match readU16 r4 with
  | none => .error "Could not read var_count"
  | some (var_count, r5) =>
  match deserializeVars var_count r5 with
  | .error e => .error e
  | .ok (vars, c) =>
    if 10 + c ≠ slen then .error "Consumed wrong number of bytes"
    else
      .ok ({ vars := vars,
             opcode := (PacketType.from_i16 (i16ofU16 opv)).getD .Unknown,
             header_0 := h0, header_1 := h1 }, 10 + c)

/-- Well-formedness mirroring the Rust types: u16 header fields and
well-formed vars. -/
def AWPacket.wf (p : AWPacket) : Prop :=
  p.header_0 < 65536 ∧ p.header_1 < 65536 ∧ ∀ v ∈ p.vars, v.wf

instance (p : AWPacket) : Decidable p.wf := by
  unfold AWPacket.wf
  infer_instance

theorem PacketType.opcodeVal_lt (pc : PacketType) : pc.opcodeVal < 32768 := by
  cases pc <;> decide

theorem serializeVars_length (vs : List AWPacketVar) :
    (serializeVars vs).length = varsLen vs := by
  induction vs with
  | nil => simp [serializeVars, varsLen]
  | cons v rest ih =>
    simp [serializeVars, varsLen, var_serialize_length] at *
    omega

theorem four_mul_length_le_varsLen (vs : List AWPacketVar) :
    4 * vs.length ≤ varsLen vs := by
  induction vs with
  | nil => simp [varsLen]
  | cons v rest ih =>
    have hv : 4 ≤ v.serialize_len := by
      cases v <;> simp [AWPacketVar.serialize_len] <;> omega
    simp only [varsLen, List.map_cons, List.sum_cons, List.length_cons] at *
    omega

theorem deserializeVars_serializeVars (vs : List AWPacketVar) (rest : List Nat)
    (h : ∀ v ∈ vs, v.wf) :
    deserializeVars vs.length (serializeVars vs ++ rest) = .ok (vs, varsLen vs) := by
  induction vs with
  | nil => simp [serializeVars, deserializeVars, varsLen]
  | cons v vs ih =>
    have hv : v.wf := h v (List.mem_cons_self v vs)
    have hrest : ∀ w ∈ vs, w.wf := fun w hw => h w (List.mem_cons_of_mem v hw)
    simp only [serializeVars, List.length_cons, List.append_assoc]
    simp only [deserializeVars,
      var_deserialize_serialize v (serializeVars vs ++ rest) hv]
    have hdrop : (v.serialize ++ (serializeVars vs ++ rest)).drop v.serialize_len
        = serializeVars vs ++ rest := by
      rw [← var_serialize_length v]
      exact List.drop_left v.serialize (serializeVars vs ++ rest)
    rw [hdrop, ih hrest]
    simp [varsLen]

theorem AWPacket.serialize_ok (p : AWPacket) (hfit : p.serialize_len ≤ 65535) :
    p.serialize = .ok (u16BE p.serialize_len ++ u16BE p.header_0 ++
      u16BE p.opcode.opcodeVal ++ u16BE p.header_1 ++ u16BE p.vars.length ++
      serializeVars p.vars) := by
  simp only [AWPacket.serialize]
  rw [if_neg (by omega)]

theorem AWPacket.serialize_length (p : AWPacket) (hfit : p.serialize_len ≤ 65535)
    (bytes : List Nat) (hser : p.serialize = .ok bytes) :
    bytes.length = p.serialize_len := by
  rw [AWPacket.serialize_ok p hfit] at hser
  cases hser
  simp [u16BE, serializeVars_length, AWPacket.serialize_len]
  omega

theorem AWPacket.deserialize_serialize (p : AWPacket) (hwf : p.wf)
    (hfit : p.serialize_len ≤ 65535) (bytes : List Nat)
    (hser : p.serialize = .ok bytes) :
    AWPacket.deserialize bytes = .ok (p, bytes.length) := by
  obtain ⟨hh0, hh1, hvars⟩ := hwf
  have hlen : bytes.length = p.serialize_len :=
    AWPacket.serialize_length p hfit bytes hser
  rw [AWPacket.serialize_ok p hfit] at hser
  cases hser
  have hcnt : p.vars.length < 65536 := by
    have h4 := four_mul_length_le_varsLen p.vars
    simp only [AWPacket.serialize_len] at hfit
    omega
  have hL : p.serialize_len < 65536 := by omega
  have hop : p.opcode.opcodeVal < 32768 := PacketType.opcodeVal_lt p.opcode
  have hdes : deserializeVars p.vars.length (serializeVars p.vars)
      = .ok (p.vars, varsLen p.vars) := by
    have := deserializeVars_serializeVars p.vars [] hvars
    simpa using this
  simp only [AWPacket.deserialize, List.append_assoc, readU16_u16BE,
    Nat.mod_eq_of_lt hL, Nat.mod_eq_of_lt hh0, Nat.mod_eq_of_lt hh1,
    Nat.mod_eq_of_lt hcnt, Nat.mod_eq_of_lt (show p.opcode.opcodeVal < 65536 by omega),
    hdes]
  rw [if_neg (by simp only [AWPacket.serialize_len]; omega)]
  have hi16 : i16ofU16 p.opcode.opcodeVal = (p.opcode.opcodeVal : Int) := by
    simp [i16ofU16, hop]
  rw [hi16, PacketType.from_i16_opcodeVal]
  have hlen2 : (u16BE p.serialize_len ++ (u16BE p.header_0 ++
      (u16BE p.opcode.opcodeVal ++ (u16BE p.header_1 ++
      (u16BE p.vars.length ++ serializeVars p.vars))))).length
      = 10 + varsLen p.vars := by
    simp [u16BE, serializeVars_length]
    omega
  rw [hlen2]
  simp [Option.getD_some]

/-! ## Spec-side accessor selectors (for claim C6) -/

/-- Selector written from the spec's words: the payload of a Byte var carrying
the id, `none` on any other var. -/
def byteSel (var_id : Nat) : AWPacketVar → Option Nat
  | .byte id x => if id = var_id then some x else none
  | _ => none

def intSel (var_id : Nat) : AWPacketVar → Option Int
  | .int id x => if id = var_id then some x else none
  | _ => none

def uintSel (var_id : Nat) : AWPacketVar → Option Nat
  | .uint id x => if id = var_id then some x else none
  | _ => none

def floatSel (var_id : Nat) : AWPacketVar → Option Nat
  | .float id x => if id = var_id then some x else none
  | _ => none

def stringSel (var_id : Nat) : AWPacketVar → Option (List Nat)
  | .str id x => if id = var_id then some x else none
  | _ => none

def dataSel (var_id : Nat) : AWPacketVar → Option (List Nat)
  | .data id x => if id = var_id then some x else none
  | _ => none

/-- The spec-side accessor: payload of the first var selected by `f`. -/
def firstPayload (f : AWPacketVar → Option α) : List AWPacketVar → Option α
  | [] => none
  | v :: rest =>
    match f v with
    | some x => some x
    | none => firstPayload f rest

theorem firstPayload_append (f : AWPacketVar → Option α) (l1 l2 : List AWPacketVar)
    (h : ∀ v ∈ l1, f v = none) :
    firstPayload f (l1 ++ l2) = firstPayload f l2 := by
  induction l1 with
  | nil => rfl
  | cons v rest ih =>
    have hv : f v = none := h v (List.mem_cons_self v rest)
    simp only [List.cons_append, firstPayload, hv]
    exact ih (fun w hw => h w (List.mem_cons_of_mem v hw))

theorem getByteAux_eq_firstPayload (var_id : Nat) (vs : List AWPacketVar) :
    getByteAux var_id vs = firstPayload (byteSel var_id) vs := by
  induction vs with
  | nil => rfl
  | cons v rest ih =>
    cases v <;> simp only [getByteAux, firstPayload, byteSel, ih]
    split <;> simp [ih]

theorem getIntAux_eq_firstPayload (var_id : Nat) (vs : List AWPacketVar) :
    getIntAux var_id vs = firstPayload (intSel var_id) vs := by
  induction vs with
  | nil => rfl
  | cons v rest ih =>
    cases v <;> simp only [getIntAux, firstPayload, intSel, ih]
    split <;> simp [ih]

theorem getUintAux_eq_firstPayload (var_id : Nat) (vs : List AWPacketVar) :
    getUintAux var_id vs = firstPayload (uintSel var_id) vs := by
  induction vs with
  | nil => rfl
  | cons v rest ih =>
    cases v <;> simp only [getUintAux, firstPayload, uintSel, ih]
    split <;> simp [ih]

theorem getFloatAux_eq_firstPayload (var_id : Nat) (vs : List AWPacketVar) :
    getFloatAux var_id vs = firstPayload (floatSel var_id) vs := by
  induction vs with
  | nil => rfl
  | cons v rest ih =>
    cases v <;> simp only [getFloatAux, firstPayload, floatSel, ih]
    split <;> simp [ih]

theorem getStringAux_eq_firstPayload (var_id : Nat) (vs : List AWPacketVar) :
    getStringAux var_id vs = firstPayload (stringSel var_id) vs := by
  induction vs with
  | nil => rfl
  | cons v rest ih =>
    cases v <;> simp only [getStringAux, firstPayload, stringSel, ih]
    split <;> simp [ih]

theorem getDataAux_eq_firstPayload (var_id : Nat) (vs : List AWPacketVar) :
    getDataAux var_id vs = firstPayload (dataSel var_id) vs := by
  induction vs with
  | nil => rfl
  | cons v rest ih =>
    cases v <;> simp only [getDataAux, firstPayload, dataSel, ih]
    split <;> simp [ih]

/-- The payload/accessor pairing of a var: the typed accessor named after the
var's kind, applied at the var's id, yields the var's payload. -/
def accessorAgrees (p : AWPacket) (v : AWPacketVar) : Prop :=
  match v with
  | .byte id x => p.get_byte id = some x
  | .int id x => p.get_int id = some x
  | .uint id x => p.get_uint id = some x
  | .float id b => p.get_float id = some b
  | .str id s => p.get_string id = some s
  | .data id d => p.get_data id = some d

theorem sel_none_of_ne (w : AWPacketVar) (var_id : Nat)
    (h : w.get_var_id ≠ var_id) :
    byteSel var_id w = none ∧ intSel var_id w = none ∧ uintSel var_id w = none ∧
    floatSel var_id w = none ∧ stringSel var_id w = none ∧ dataSel var_id w = none := by
  cases w <;>
    simp_all [byteSel, intSel, uintSel, floatSel, stringSel, dataSel,
      AWPacketVar.get_var_id]

theorem accessorAgrees_add_var (p : AWPacket) (v : AWPacketVar)
    (h : p.get_var v.get_var_id = none) :
    accessorAgrees (p.add_var v) v := by
  have hnone : ∀ w ∈ p.vars, w.get_var_id ≠ v.get_var_id := by
    intro w hw
    have := List.find?_eq_none.mp h w hw
    simpa using this
  cases v with
  | byte id x =>
    simp only [accessorAgrees, AWPacket.add_var, AWPacket.get_byte,
      getByteAux_eq_firstPayload]
    rw [firstPayload_append _ _ _
      (fun w hw => (sel_none_of_ne w id (hnone w hw)).1)]
    simp [firstPayload, byteSel]
  | int id x =>
    simp only [accessorAgrees, AWPacket.add_var, AWPacket.get_int,
      getIntAux_eq_firstPayload]
    rw [firstPayload_append _ _ _
      (fun w hw => (sel_none_of_ne w id (hnone w hw)).2.1)]
    simp [firstPayload, intSel]
  | uint id x =>
    simp only [accessorAgrees, AWPacket.add_var, AWPacket.get_uint,
      getUintAux_eq_firstPayload]
    rw [firstPayload_append _ _ _
      (fun w hw => (sel_none_of_ne w id (hnone w hw)).2.2.1)]
    simp [firstPayload, uintSel]
  | float id x =>
    simp only [accessorAgrees, AWPacket.add_var, AWPacket.get_float,
      getFloatAux_eq_firstPayload]
    rw [firstPayload_append _ _ _
      (fun w hw => (sel_none_of_ne w id (hnone w hw)).2.2.2.1)]
    simp [firstPayload, floatSel]
  | str id x =>
    simp only [accessorAgrees, AWPacket.add_var, AWPacket.get_string,
      getStringAux_eq_firstPayload]
    rw [firstPayload_append _ _ _
      (fun w hw => (sel_none_of_ne w id (hnone w hw)).2.2.2.2.1)]
    simp [firstPayload, stringSel]
  | data id x =>
    simp only [accessorAgrees, AWPacket.add_var, AWPacket.get_data,
      getDataAux_eq_firstPayload]
    rw [firstPayload_append _ _ _
      (fun w hw => (sel_none_of_ne w id (hnone w hw)).2.2.2.2.2)]
    simp [firstPayload, dataSel]

/-- C4: for every packet `p` whose serialized form fits in 65535 bytes (and is
well formed in the sense mirroring the Rust types), `deserialize(serialize(p))`
succeeds and returns `(p, len(serialize(p)))`: the opcode, the vars in
insertion order and both pass-through header fields are recovered bit-exact. -/
theorem claimC4_roundtrip (p : AWPacket) (hwf : p.wf)
    (hfit : p.serialize_len ≤ 65535) :
    ∃ bytes, p.serialize = .ok bytes ∧ bytes.length = p.serialize_len ∧
      AWPacket.deserialize bytes = .ok (p, bytes.length) :=
  ⟨_, AWPacket.serialize_ok p hfit,
    AWPacket.serialize_length p hfit _ (AWPacket.serialize_ok p hfit),
    AWPacket.deserialize_serialize p hwf hfit _ (AWPacket.serialize_ok p hfit)⟩

/-- A concrete packet exercising every var kind, for the C4 witness. -/
def c4Packet : AWPacket :=
  { vars := [.byte 1 200, .int 2 (-3), .uint 3 4000000000, .float 4 1078530011,
             .str 5 [72, 105], .data 6 [0, 255]],
    opcode := .Login, header_0 := 7, header_1 := 9 }

theorem claimC4_roundtrip_witness :
    c4Packet.wf ∧ c4Packet.serialize_len ≤ 65535 ∧
    ∃ bytes, c4Packet.serialize = .ok bytes ∧
      bytes.length = c4Packet.serialize_len ∧
      AWPacket.deserialize bytes = .ok (c4Packet, bytes.length) :=
  ⟨by decide, by decide, claimC4_roundtrip c4Packet (by decide) (by decide)⟩

/-- C6 counterexample: in the packet whose vars are `[Int(17, 7), Byte(17, 9)]`
the first var carrying id 17 is the Int var, yet `get_byte` returns the
payload of the second var carrying that id — so the accessor does not return
"the payload of the first var in insertion order carrying that id", and a
duplicate of the id after the first is not ignored. -/
theorem claimC6_counterexample :
    AWPacket.get_var
      { vars := [.int 17 7, .byte 17 9], opcode := .Unknown,
        header_0 := 0, header_1 := 0 } 17 = some (.int 17 7)
    ∧ AWPacket.get_byte
      { vars := [.int 17 7, .byte 17 9], opcode := .Unknown,
        header_0 := 0, header_1 := 0 } 17 = some 9
    ∧ AWPacketVar.int 17 7 ≠ AWPacketVar.byte 17 9 := by
  refine ⟨by decide, by decide, by decide⟩

/-- C6 amended: each typed accessor returns the payload of the first var **of
its own kind** carrying the id (vars of other kinds are skipped even when
their id matches; duplicates of the same kind after the first are ignored);
consequently after `add_var(p, v)`, `get_<kind of v>(p, v.id) = Some(v.payload)`
whenever no var with that id preceded `v`. -/
theorem claimC6_amended :
    (∀ (p : AWPacket) (var_id : Nat),
      p.get_byte var_id = firstPayload (byteSel var_id) p.vars)
    ∧ (∀ (p : AWPacket) (var_id : Nat),
      p.get_int var_id = firstPayload (intSel var_id) p.vars)
    ∧ (∀ (p : AWPacket) (var_id : Nat),
      p.get_uint var_id = firstPayload (uintSel var_id) p.vars)
    ∧ (∀ (p : AWPacket) (var_id : Nat),
      p.get_float var_id = firstPayload (floatSel var_id) p.vars)
    ∧ (∀ (p : AWPacket) (var_id : Nat),
      p.get_string var_id = firstPayload (stringSel var_id) p.vars)
    ∧ (∀ (p : AWPacket) (var_id : Nat),
      p.get_data var_id = firstPayload (dataSel var_id) p.vars)
    ∧ (∀ (p : AWPacket) (v : AWPacketVar),
      p.get_var v.get_var_id = none → accessorAgrees (p.add_var v) v) :=
  ⟨fun p var_id => getByteAux_eq_firstPayload var_id p.vars,
   fun p var_id => getIntAux_eq_firstPayload var_id p.vars,
   fun p var_id => getUintAux_eq_firstPayload var_id p.vars,
   fun p var_id => getFloatAux_eq_firstPayload var_id p.vars,
   fun p var_id => getStringAux_eq_firstPayload var_id p.vars,
   fun p var_id => getDataAux_eq_firstPayload var_id p.vars,
   accessorAgrees_add_var⟩

theorem claimC6_amended_witness :
    (AWPacket.new .Unknown).get_var 5 = none ∧
    accessorAgrees ((AWPacket.new .Unknown).add_var (.byte 5 7)) (.byte 5 7) :=
  ⟨by decide,
   claimC6_amended.2.2.2.2.2.2 (AWPacket.new .Unknown) (.byte 5 7) (by decide)⟩

/-! ## Universe data model (universe/src/packet_handler/user_handler.rs) -/

/-- Modelled from the spec: the var id constants used by the handlers — §6 fixes
that var ids are stable u16 constants (`VarID::*` in the source) but gives no
numeric values; distinct small constants are used, only their identity
matters to the claims. -/
def VarID.UserType : Nat := 1

def VarID.LoginUsername : Nat := 2

def VarID.Password : Nat := 3

def VarID.Email : Nat := 4

def VarID.PrivilegeUserID : Nat := 5

def VarID.PrivilegePassword : Nat := 6

def VarID.BrowserVersion : Nat := 7

def VarID.BrowserBuild : Nat := 8

def VarID.BetaUser : Nat := 9

def VarID.TrialUser : Nat := 10

def VarID.CitizenNumber : Nat := 11

def VarID.CitizenPrivacy : Nat := 12

def VarID.CAVEnabled : Nat := 13

def VarID.CitizenName : Nat := 14

def VarID.SessionID : Nat := 15

def VarID.UniverseLicense : Nat := 16

def VarID.ReasonCode : Nat := 17

def VarID.UserList3DayUnknown : Nat := 18

def VarID.UserListName : Nat := 19

def VarID.UserListID : Nat := 20

def VarID.UserListCitizenID : Nat := 21

def VarID.UserListPrivilegeID : Nat := 22

def VarID.UserListAddress : Nat := 23

def VarID.UserListState : Nat := 24

def VarID.UserListWorldName : Nat := 25

def VarID.UserListMore : Nat := 26

def VarID.CitizenURL : Nat := 27

def VarID.CAVTemplate : Nat := 28

def VarID.CitizenImmigration : Nat := 29

def VarID.CitizenExpiration : Nat := 30

def VarID.CitizenLastLogin : Nat := 31

def VarID.CitizenTotalTime : Nat := 32

def VarID.CitizenBotLimit : Nat := 33

def VarID.CitizenEnabled : Nat := 34

def VarID.CitizenPassword : Nat := 35

def VarID.CitizenEmail : Nat := 36

def VarID.CitizenPrivilegePassword : Nat := 37

def VarID.CitizenComment : Nat := 38

def VarID.IdentifyUserIP : Nat := 39

/-- Modelled from the spec: the reply reason codes — §6 pins `Success = 0` and
requires stable, distinct codes for the rest; the concrete non-zero values
are not given, so distinct small ones are used. -/
inductive ReasonCode
  | Success
  | NoSuchCitizen
  | Unauthorized
  | NameAlreadyUsed
  | UnableToChangeCitizen
deriving DecidableEq, Repr

def ReasonCode.toI32 : ReasonCode → Int
  | .Success => 0
  | .NoSuchCitizen => 1
  | .Unauthorized => 2
  | .NameAlreadyUsed => 3
  | .UnableToChangeCitizen => 4

/-- Modelled from the spec: the client kinds — §3 lists them; the `ClientType`
enum itself lives in `client.rs`, outside the analysed sources. -/
inductive ClientType
  | World
  | UnspecifiedHuman
  | Citizen
  | Tourist
  | Bot
deriving DecidableEq, Repr

/-- Modelled from the spec: `ClientType::from_i32` — only `UserType = 1 ↦
UnspecifiedHuman` is pinned (scenario S1); the other discriminants are
arbitrary distinct values, and no claim depends on them. -/
def ClientType.from_i32 : Int → Option ClientType
  | 0 => some .World
  | 1 => some .UnspecifiedHuman
  | 2 => some .Citizen
  | 3 => some .Tourist
  | 4 => some .Bot
  | _ => none

/-- The `PlayerInfo` record exactly as constructed in the `login` handler
(its type lives in crate::client). -/
structure PlayerInfo where
  build : Int
  session_id : Nat
  citizen_id : Option Nat
  privilege_id : Option Nat
  username : List Nat
deriving DecidableEq, Repr

inductive Entity
  | player (info : PlayerInfo)
  | worldServer (worlds : List Nat)
deriving DecidableEq, Repr

/-- The per-client record mutated by `login` (client.rs, modelled from its
uses in the analysed handlers). -/
structure ClientInfo where
  client_type : Option ClientType
  entity : Option Entity
deriving DecidableEq, Repr

inductive IpAddr
  | v4 (a b c d : Nat)
  | v6
deriving DecidableEq, Repr

/-- A connected client as the handlers see it.  `admin` models
`has_admin_permissions()` (implemented outside the analysed sources) and
`conn` identifies the connection packets are sent on. -/
structure Client where
  info : ClientInfo
  admin : Bool
  addr : IpAddr
  conn : Nat
deriving DecidableEq, Repr

/-- Mirrors `CitizenQuery` (database/citizen.rs): the citizen record shape, fields as
listed in spec §3 plus the `changed` flag the handlers set to 0. -/
structure CitizenQuery where
  id : Nat
  changed : Nat
  name : List Nat
  password : List Nat
  email : List Nat
  priv_pass : List Nat
  comment : List Nat
  url : List Nat
  immigration : Nat
  expiration : Nat
  last_login : Nat
  last_address : Nat
  total_time : Nat
  bot_limit : Nat
  beta : Nat
  cav_enabled : Nat
  cav_template : Nat
  enabled : Nat
  privacy : Nat
  trial : Nat
deriving DecidableEq, Repr

/-- The citizen table.  Modelled from the spec: §6 describes the collaborator
as "the citizen table by `id` and `name`". -/
abbrev Database := List CitizenQuery

/-- Modelled from the spec: `database.citizen_by_number` — §6 lists
`citizen_by_number(id)` as a lookup in the citizen table whose primary key is
`id` (§3), i.e. an exact lookup by id. -/
def citizen_by_number (db : Database) (citizen_id : Nat) : Option CitizenQuery :=
  db.find? (fun c => c.id == citizen_id)

/-- Modelled from the spec: `database.citizen_by_name`, the exact lookup
by the `name` key. -/
def citizen_by_name (db : Database) (name : List Nat) : Option CitizenQuery :=
  db.find? (fun c => c.name == name)

/-- Mirrors `u32::saturating_add(1)` on an id below 2^32. -/
def satAdd1 (n : Nat) : Nat := min (n + 1) 4294967295

/-- Mirrors `u32::saturating_sub(1)` (Nat subtraction already saturates at 0). -/
def satSub1 (n : Nat) : Nat := n - 1

/-- Fold a var list onto a packet with `add_var`, mirroring the push loops. -/
def addVars (p : AWPacket) (vs : List AWPacketVar) : AWPacket :=
  vs.foldl AWPacket.add_var p

/-- The unconditional pushes of `citizen_info_vars` (user_handler.rs 557-573;
note the `as u8` casts on `trial` and `cav_enabled`). -/
def civPublic (citizen : CitizenQuery) : List AWPacketVar :=
  [.uint VarID.CitizenNumber citizen.id,
   .str VarID.CitizenName citizen.name,
   .str VarID.CitizenURL citizen.url,
   .byte VarID.TrialUser (citizen.trial % 256),
   .byte VarID.CAVEnabled (citizen.cav_enabled % 256)]

/-- The CAVTemplate push (user_handler.rs 569-573). -/
def civCav (citizen : CitizenQuery) : List AWPacketVar :=
  if citizen.cav_enabled ≠ 0 then [.uint VarID.CAVTemplate citizen.cav_template]
  else [.int VarID.CAVTemplate 0]

/-- The self-or-admin block with its nested admin-only block
(user_handler.rs 575-626), including the duplicated CitizenImmigration push. -/
def civSelfAdmin (citizen : CitizenQuery) (self_vars admin_vars : Bool) :
    List AWPacketVar :=
  if self_vars || admin_vars then
    [.uint VarID.CitizenImmigration citizen.immigration,
     .uint VarID.CitizenExpiration citizen.expiration,
     .uint VarID.CitizenLastLogin citizen.last_login,
     .uint VarID.CitizenTotalTime citizen.total_time,
     .uint VarID.CitizenBotLimit citizen.bot_limit,
     .byte VarID.BetaUser (citizen.beta % 256),
     .byte VarID.CitizenEnabled (citizen.enabled % 256),
     .uint VarID.CitizenPrivacy citizen.privacy,
     .str VarID.CitizenPassword citizen.password,
     .str VarID.CitizenEmail citizen.email,
     .str VarID.CitizenPrivilegePassword citizen.priv_pass,
     .uint VarID.CitizenImmigration citizen.immigration] ++
    (if admin_vars then
      [.str VarID.CitizenComment citizen.comment,
       .uint VarID.IdentifyUserIP citizen.last_address]
     else [])
  else []

/-- Mirrors `citizen_info_vars`: the pushes in source order. -/
def citizen_info_vars (citizen : CitizenQuery) (self_vars admin_vars : Bool) :
    List AWPacketVar :=
  civPublic citizen ++ civCav citizen ++ civSelfAdmin citizen self_vars admin_vars

/-- Mirrors `citizen_next` (user_handler.rs 311-341): admin gate, then exact lookup of
`citizen_number.saturating_add(1)`; returns the `CitizenInfo` reply sent on
the caller's connection. -/
def citizen_next (client : Client) (packet : AWPacket) (database : Database) :
    AWPacket :=
  let (rc, vars) :=
    if client.admin = false then (ReasonCode.Unauthorized, [])
    else
      match client.info.entity with
      | some (.player info) =>
        let citizen_id := (packet.get_uint VarID.CitizenNumber).getD 0
        match citizen_by_number database (satAdd1 citizen_id) with
        | some citizen =>
          let same_citizen_id := info.citizen_id = some citizen.id
          (ReasonCode.Success,
            citizen_info_vars citizen same_citizen_id client.admin)
        | none => (ReasonCode.NoSuchCitizen, [])
      | _ => (ReasonCode.Success, [])
  (addVars (AWPacket.new .CitizenInfo) vars).add_var
    (.int VarID.ReasonCode rc.toI32)

/-- Mirrors `citizen_prev` (user_handler.rs 343-373): as `citizen_next` with
`saturating_sub(1)`. -/
def citizen_prev (client : Client) (packet : AWPacket) (database : Database) :
    AWPacket :=
  let (rc, vars) :=
    if client.admin = false then (ReasonCode.Unauthorized, [])
    else
      match client.info.entity with
      | some (.player info) =>
        let citizen_id := (packet.get_uint VarID.CitizenNumber).getD 0
        match citizen_by_number database (satSub1 citizen_id) with
        | some citizen =>
          let same_citizen_id := info.citizen_id = some citizen.id
          (ReasonCode.Success,
            citizen_info_vars citizen same_citizen_id client.admin)
        | none => (ReasonCode.NoSuchCitizen, [])
      | _ => (ReasonCode.Success, [])
  (addVars (AWPacket.new .CitizenInfo) vars).add_var
    (.int VarID.ReasonCode rc.toI32)

/-- Mirrors `citizen_from_packet` (user_handler.rs 631-700): every required field
must be present or the whole parse errors; the non-submittable fields are
zeroed. -/
def citizen_from_packet (packet : AWPacket) : Except String CitizenQuery :=
  match packet.get_string VarID.CitizenName with
  | none => .error "No citizen name"
  | some username =>
  match packet.get_uint VarID.CitizenNumber with
  | none => .error "No citizen number"
  | some citizen_id =>
  match packet.get_string VarID.CitizenEmail with
  | none => .error "No citizen email"
  | some email =>
  match packet.get_string VarID.CitizenPrivilegePassword with
  | none => .error "No citizen privilege password"
  | some priv_pass =>
  match packet.get_uint VarID.CitizenExpiration with
  | none => .error "No citizen expiration"
  | some expiration =>
  match packet.get_uint VarID.CitizenBotLimit with
  | none => .error "No citizen bot limit"
  | some bot_limit =>
  match packet.get_uint VarID.BetaUser with
  | none => .error "No citizen beta user"
  | some beta =>
  match packet.get_uint VarID.CitizenEnabled with
  | none => .error "No citizen enabled"
  | some enabled =>
  match packet.get_string VarID.CitizenComment with
  | none => .error "No citizen comment"
  | some comment =>
  match packet.get_string VarID.CitizenPassword with
  | none => .error "No citizen password"
  | some password =>
  match packet.get_string VarID.CitizenURL with
  | none => .error "No citizen url"
  | some url =>
  match packet.get_uint VarID.CAVTemplate with
  | none => .error "No citizen cav template"
  | some cav_template =>
  match packet.get_uint VarID.CAVEnabled with
  | none => .error "No citizen cav enabled"
  | some cav_enabled =>
  match packet.get_uint VarID.CitizenPrivacy with
  | none => .error "No citizen privacy"
  | some privacy =>
  match packet.get_uint VarID.TrialUser with
  | none => .error "No citizen trial"
  | some trial =>
    .ok { id := citizen_id, changed := 0, name := username,
          password := password, email := email, priv_pass := priv_pass,
          comment := comment, url := url, immigration := 0,
          expiration := expiration, last_login := 0, last_address := 0,
          total_time := 0, bot_limit := bot_limit, beta := beta,
          cav_enabled := cav_enabled, cav_template := cav_template,
          enabled := enabled, privacy := privacy, trial := trial }

/-- The record `modify_citizen` hands to `database.citizen_change`
(user_handler.rs 500-541): keyed fields and history always from the
original, admin-only fields from the original unless the caller is admin. -/
def modified_record (original changed : CitizenQuery) (admin : Bool) :
    CitizenQuery :=
  { id := original.id,
    changed := 0,
    name := changed.name,
    password := changed.password,
    email := changed.email,
    priv_pass := changed.priv_pass,
    comment := if admin then changed.comment else original.comment,
    url := changed.url,
    immigration := original.immigration,
    expiration := if admin then changed.expiration else original.expiration,
    last_login := original.last_login,
    last_address := original.last_address,
    total_time := original.total_time,
    bot_limit := if admin then changed.bot_limit else original.bot_limit,
    beta := if admin then changed.beta else original.beta,
    cav_enabled := if admin then changed.cav_enabled else original.cav_enabled,
    cav_template := changed.cav_template,
    enabled := if admin then changed.enabled else original.enabled,
    privacy := changed.privacy,
    trial := if admin then changed.trial else original.trial }

/-- Mirrors `modify_citizen` (user_handler.rs 486-548): name-collision check, then the
database write.  On success the model returns the record handed to
`database.citizen_change` (the write itself is the collaborator's; its
failure path, `UnableToChangeCitizen`, is outside the analysed sources). -/
def modify_citizen (original changed : CitizenQuery) (database : Database)
    (admin : Bool) : Except ReasonCode CitizenQuery :=
  match citizen_by_name database changed.name with
  | some matching_cit =>
    if matching_cit.id ≠ original.id then .error .NameAlreadyUsed
    else .ok (modified_record original changed admin)
  | none => .ok (modified_record original changed admin)

/-- Mirrors `citizen_change` (user_handler.rs 447-484).  Returns the list of reply
packets sent on the caller's connection and the record written to the
database, if any.  A packet that fails `citizen_from_packet` is logged and
dropped with no reply (the early `return`). -/
def citizen_change (client : Client) (packet : AWPacket) (database : Database) :
    List AWPacket × Option CitizenQuery :=
  match citizen_from_packet packet with
  | .error _ => ([], none)
  | .ok changed_info =>
    let rcw : ReasonCode × Option CitizenQuery :=
      match client.info.entity with
      | some (.player info) =>
        if some changed_info.id ≠ info.citizen_id ∧ client.admin = false then
          (.Unauthorized, none)
        else
          match citizen_by_number database changed_info.id with
          | some original_info =>
            match modify_citizen original_info changed_info database client.admin with
            | .error x => (x, none)
            | .ok q => (.Success, some q)
          | none => (.NoSuchCitizen, none)
      | _ => (.Success, none)
    ([(AWPacket.new .CitizenChangeResult).add_var
        (.int VarID.ReasonCode rcw.1.toI32)], rcw.2)

theorem addVars_vars (p : AWPacket) (vs : List AWPacketVar) :
    (addVars p vs).vars = p.vars ++ vs := by
  induction vs generalizing p with
  | nil => simp [addVars]
  | cons v rest ih =>
    simp [addVars, AWPacket.add_var] at *
    rw [ih]
    simp

theorem intSel_reason_civ (c : CitizenQuery) (s a : Bool) :
    ∀ w ∈ citizen_info_vars c s a, intSel VarID.ReasonCode w = none := by
  intro w hw
  simp only [citizen_info_vars, List.mem_append] at hw
  rcases hw with (h | h) | h
  · simp only [civPublic, List.mem_cons, List.not_mem_nil, or_false] at h
    rcases h with rfl | rfl | rfl | rfl | rfl <;> rfl
  · by_cases hc : c.cav_enabled ≠ 0
    · simp only [civCav, if_pos hc, List.mem_singleton] at h
      subst h; rfl
    · simp only [civCav, if_neg hc, List.mem_singleton] at h
      subst h; decide
  · by_cases hsa : (s || a) = true
    · simp only [civSelfAdmin, if_pos hsa, List.mem_append, List.mem_cons,
        List.not_mem_nil, or_false] at h
      rcases h with (rfl | rfl | rfl | rfl | rfl | rfl | rfl | rfl | rfl | rfl
        | rfl | rfl) | h
      all_goals first
      | rfl
      | (by_cases hadm : a = true
         · simp only [if_pos hadm, List.mem_cons, List.not_mem_nil, or_false] at h
           rcases h with rfl | rfl <;> rfl
         · simp [if_neg hadm] at h)
    · simp only [civSelfAdmin, if_neg hsa] at h
      simp at h

/-- The reason code appended last is what `get_int(ReasonCode)` reads, for any
`CitizenInfo` body. -/
theorem get_int_reason (vars : List AWPacketVar) (v : Int)
    (h : ∀ w ∈ vars, intSel VarID.ReasonCode w = none) :
    ((addVars (AWPacket.new .CitizenInfo) vars).add_var
      (.int VarID.ReasonCode v)).get_int VarID.ReasonCode = some v := by
  simp only [AWPacket.get_int, AWPacket.add_var, addVars_vars, AWPacket.new,
    List.nil_append, getIntAux_eq_firstPayload]
  rw [firstPayload_append _ _ _ h]
  simp [firstPayload, intSel]

theorem get_uint_citnum (c : CitizenQuery) (s a : Bool) (v : Int) :
    ((addVars (AWPacket.new .CitizenInfo) (citizen_info_vars c s a)).add_var
      (.int VarID.ReasonCode v)).get_uint VarID.CitizenNumber = some c.id := by
  simp [AWPacket.get_uint, AWPacket.add_var, addVars_vars, AWPacket.new,
    citizen_info_vars, civPublic, getUintAux]

theorem get_string_citname (c : CitizenQuery) (s a : Bool) (v : Int) :
    ((addVars (AWPacket.new .CitizenInfo) (citizen_info_vars c s a)).add_var
      (.int VarID.ReasonCode v)).get_string VarID.CitizenName = some c.name := by
  simp [AWPacket.get_string, AWPacket.add_var, addVars_vars, AWPacket.new,
    citizen_info_vars, civPublic, getStringAux, VarID.CitizenName]

theorem get_uint_none_of_empty_body (v : Int) :
    ((addVars (AWPacket.new .CitizenInfo) []).add_var
      (.int VarID.ReasonCode v)).get_uint VarID.CitizenNumber = none := by
  simp [AWPacket.get_uint, AWPacket.add_var, addVars_vars, AWPacket.new,
    getUintAux, addVars]

/-- C1 amended: for an admin player carrying `CitizenNumber = n`, the
`CitizenNext` reply describes the citizen whose id is **exactly**
`n.saturating_add(1)` when one exists in the table, else `NoSuchCitizen`
(so at `n = u32::MAX` the query is for id `u32::MAX` itself); symmetrically
`CitizenPrev` queries exactly `n.saturating_sub(1)` (at `n = 0`, id 0).
The handlers do not search for the smallest id greater / largest id smaller
than `n`. -/
theorem claimC1_amended (client : Client) (packet : AWPacket) (db : Database)
    (info : PlayerInfo) (n : Nat)
    (hadmin : client.admin = true)
    (hent : client.info.entity = some (.player info))
    (hn : packet.get_uint VarID.CitizenNumber = some n) :
    ((∀ c, citizen_by_number db (satAdd1 n) = some c →
        (citizen_next client packet db).get_int VarID.ReasonCode
          = some ReasonCode.Success.toI32 ∧
        (citizen_next client packet db).get_uint VarID.CitizenNumber = some c.id ∧
        (citizen_next client packet db).get_string VarID.CitizenName = some c.name)
      ∧ (citizen_by_number db (satAdd1 n) = none →
        (citizen_next client packet db).get_int VarID.ReasonCode
          = some ReasonCode.NoSuchCitizen.toI32 ∧
        (citizen_next client packet db).get_uint VarID.CitizenNumber = none))
    ∧ ((∀ c, citizen_by_number db (satSub1 n) = some c →
        (citizen_prev client packet db).get_int VarID.ReasonCode
          = some ReasonCode.Success.toI32 ∧
        (citizen_prev client packet db).get_uint VarID.CitizenNumber = some c.id ∧
        (citizen_prev client packet db).get_string VarID.CitizenName = some c.name)
      ∧ (citizen_by_number db (satSub1 n) = none →
        (citizen_prev client packet db).get_int VarID.ReasonCode
          = some ReasonCode.NoSuchCitizen.toI32 ∧
        (citizen_prev client packet db).get_uint VarID.CitizenNumber = none)) := by
  refine ⟨⟨?_, ?_⟩, ?_, ?_⟩
  · intro c hc
    have hresp : citizen_next client packet db
        = (addVars (AWPacket.new .CitizenInfo)
            (citizen_info_vars c (decide (info.citizen_id = some c.id))
              client.admin)).add_var
          (.int VarID.ReasonCode ReasonCode.Success.toI32) := by
      simp [citizen_next, hadmin, hent, hn, hc]
    rw [hresp]
    exact ⟨get_int_reason _ _ (intSel_reason_civ c _ _),
      get_uint_citnum c _ _ _, get_string_citname c _ _ _⟩
  · intro hc
    have hresp : citizen_next client packet db
        = (addVars (AWPacket.new .CitizenInfo) []).add_var
          (.int VarID.ReasonCode ReasonCode.NoSuchCitizen.toI32) := by
      simp [citizen_next, hadmin, hent, hn, hc]
    rw [hresp]
    exact ⟨get_int_reason [] _ (by intro w hw; simp at hw),
      get_uint_none_of_empty_body _⟩
  · intro c hc
    have hresp : citizen_prev client packet db
        = (addVars (AWPacket.new .CitizenInfo)
            (citizen_info_vars c (decide (info.citizen_id = some c.id))
              client.admin)).add_var
          (.int VarID.ReasonCode ReasonCode.Success.toI32) := by
      simp [citizen_prev, hadmin, hent, hn, hc]
    rw [hresp]
    exact ⟨get_int_reason _ _ (intSel_reason_civ c _ _),
      get_uint_citnum c _ _ _, get_string_citname c _ _ _⟩
  · intro hc
    have hresp : citizen_prev client packet db
        = (addVars (AWPacket.new .CitizenInfo) []).add_var
          (.int VarID.ReasonCode ReasonCode.NoSuchCitizen.toI32) := by
      simp [citizen_prev, hadmin, hent, hn, hc]
    rw [hresp]
    exact ⟨get_int_reason [] _ (by intro w hw; simp at hw),
      get_uint_none_of_empty_body _⟩

/-- A citizen record with the given id and all other fields zero/empty. -/
def testCitizen (n : Nat) : CitizenQuery :=
  { id := n, changed := 0, name := [], password := [], email := [],
    priv_pass := [], comment := [], url := [], immigration := 0,
    expiration := 0, last_login := 0, last_address := 0, total_time := 0,
    bot_limit := 0, beta := 0, cav_enabled := 0, cav_template := 0,
    enabled := 0, privacy := 0, trial := 0 }

def c1Info : PlayerInfo :=
  { build := 0, session_id := 1, citizen_id := some 1, privilege_id := none,
    username := [] }

def c1Client : Client :=
  { info := { client_type := some .Citizen, entity := some (.player c1Info) },
    admin := true, addr := .v6, conn := 0 }

def c1Pkt : AWPacket :=
  { vars := [.uint VarID.CitizenNumber 1], opcode := .CitizenNext,
    header_0 := 0, header_1 := 0 }

def c1Db : Database := [testCitizen 1, testCitizen 5]

/-- C1 counterexample: with citizens `{1, 5}` an admin player's
`CitizenNext(1)` is answered `NoSuchCitizen`, although a citizen with id
greater than 1 exists (id 5, the smallest such) — the handler looked up id 2
exactly and did not return the citizen with the smallest id above the input. -/
theorem claimC1_counterexample :
    (citizen_next c1Client c1Pkt c1Db).get_int VarID.ReasonCode
      = some ReasonCode.NoSuchCitizen.toI32
    ∧ (citizen_next c1Client c1Pkt c1Db).get_uint VarID.CitizenNumber = none
    ∧ (∃ c ∈ c1Db, 1 < c.id)
    ∧ c1Client.admin = true
    ∧ c1Pkt.get_uint VarID.CitizenNumber = some 1 := by
  refine ⟨by decide, by decide, ⟨testCitizen 5, by decide, by decide⟩,
    by decide, by decide⟩

def c1WDb : Database := [testCitizen 2]

theorem claimC1_amended_witness :
    (citizen_next c1Client c1Pkt c1WDb).get_int VarID.ReasonCode
      = some ReasonCode.Success.toI32
    ∧ (citizen_next c1Client c1Pkt c1WDb).get_uint VarID.CitizenNumber
      = some (testCitizen 2).id := by
  have h := (claimC1_amended c1Client c1Pkt c1WDb c1Info 1 rfl rfl rfl).1.1
    (testCitizen 2) (by rfl)
  exact ⟨h.1, h.2.1⟩

def c5Client : Client :=
  { info := { client_type := some .Citizen,
              entity := some (.player c1Info) },
    admin := false, addr := .v6, conn := 1 }

/-- C5 counterexample: a `CitizenChange` missing the required CitizenName
field produces **no** reply at all — the handler logs and returns before any
`CitizenChangeResult` is built, so it does not send exactly one reply with a
reason code. -/
theorem claimC5_counterexample :
    (citizen_change c5Client (AWPacket.new .CitizenChange) ([] : Database)).1 = []
    ∧ (AWPacket.new .CitizenChange).get_string VarID.CitizenName = none :=
  ⟨rfl, rfl⟩

/-- C5 amended: every `CitizenChange` request whose packet parses into a
citizen record (all required fields present) is answered with exactly one
`CitizenChangeResult` reply carrying a ReasonCode; a request missing a
required field is dropped with no reply. -/
theorem claimC5_amended (client : Client) (packet : AWPacket) (db : Database)
    (q : CitizenQuery) (h : citizen_from_packet packet = .ok q) :
    ∃ rc : Int, (citizen_change client packet db).1
      = [(AWPacket.new .CitizenChangeResult).add_var
          (.int VarID.ReasonCode rc)] := by
  simp only [citizen_change, h]
  exact ⟨_, rfl⟩

/-- A `CitizenChange` packet carrying every required field. -/
def fullChangePacket : AWPacket :=
  { vars := [.str VarID.CitizenName [98], .uint VarID.CitizenNumber 1,
             .str VarID.CitizenEmail [101], .str VarID.CitizenPrivilegePassword [],
             .uint VarID.CitizenExpiration 2, .uint VarID.CitizenBotLimit 3,
             .uint VarID.BetaUser 1, .uint VarID.CitizenEnabled 1,
             .str VarID.CitizenComment [99], .str VarID.CitizenPassword [112],
             .str VarID.CitizenURL [117], .uint VarID.CAVTemplate 4,
             .uint VarID.CAVEnabled 1, .uint VarID.CitizenPrivacy 5,
             .uint VarID.TrialUser 0],
    opcode := .CitizenChange, header_0 := 0, header_1 := 0 }

/-- The record `fullChangePacket` parses to. -/
def fullChangeRecord : CitizenQuery :=
  { id := 1, changed := 0, name := [98], password := [112], email := [101],
    priv_pass := [], comment := [99], url := [117], immigration := 0,
    expiration := 2, last_login := 0, last_address := 0, total_time := 0,
    bot_limit := 3, beta := 1, cav_enabled := 1, cav_template := 4,
    enabled := 1, privacy := 5, trial := 0 }

theorem claimC5_amended_witness :
    citizen_from_packet fullChangePacket = .ok fullChangeRecord
    ∧ ∃ rc : Int, (citizen_change c5Client fullChangePacket ([] : Database)).1
      = [(AWPacket.new .CitizenChangeResult).add_var
          (.int VarID.ReasonCode rc)] :=
  ⟨rfl, claimC5_amended c5Client fullChangePacket [] fullChangeRecord rfl⟩

theorem citizen_change_written (client : Client) (packet : AWPacket)
    (db : Database) (chg orig q : CitizenQuery)
    (hparse : citizen_from_packet packet = .ok chg)
    (hlook : citizen_by_number db chg.id = some orig)
    (hw : (citizen_change client packet db).2 = some q) :
    q = modified_record orig chg client.admin := by
  simp only [citizen_change, hparse] at hw
  cases hent : client.info.entity with
  | none => simp [hent] at hw
  | some e =>
    cases e with
    | worldServer ws => simp [hent] at hw
    | player info =>
      simp only [hent] at hw
      by_cases hcond : some chg.id ≠ info.citizen_id ∧ client.admin = false
      · simp [hcond] at hw
      · simp only [if_neg hcond, hlook, modify_citizen] at hw
        cases hname : citizen_by_name db chg.name with
        | some m =>
          simp only [hname] at hw
          by_cases hid : m.id ≠ orig.id
          · simp [hid] at hw
          · simp only [if_neg hid] at hw
            exact (Option.some.injEq _ _ ▸ hw).symm
        | none =>
          simp only [hname] at hw
          exact (Option.some.injEq _ _ ▸ hw).symm

/-- C7: whenever a `CitizenChange` is accepted and a record is written, a
non-admin caller's write retains the original `comment`, `expiration`,
`bot_limit`, `beta`, `cav_enabled`, `enabled` and `trial` while taking the
submitted `name`, `password`, `email`, `priv_pass`, `url`, `cav_template`
and `privacy`; an admin caller's write takes the submitted values for all of
them. -/
theorem claimC7_field_policy (client : Client) (packet : AWPacket)
    (db : Database) (chg orig q : CitizenQuery)
    (hparse : citizen_from_packet packet = .ok chg)
    (hlook : citizen_by_number db chg.id = some orig)
    (hw : (citizen_change client packet db).2 = some q) :
    (client.admin = false →
      q.comment = orig.comment ∧ q.expiration = orig.expiration ∧
      q.bot_limit = orig.bot_limit ∧ q.beta = orig.beta ∧
      q.cav_enabled = orig.cav_enabled ∧ q.enabled = orig.enabled ∧
      q.trial = orig.trial ∧
      q.name = chg.name ∧ q.password = chg.password ∧ q.email = chg.email ∧
      q.priv_pass = chg.priv_pass ∧ q.url = chg.url ∧
      q.cav_template = chg.cav_template ∧ q.privacy = chg.privacy)
    ∧ (client.admin = true →
      q.comment = chg.comment ∧ q.expiration = chg.expiration ∧
      q.bot_limit = chg.bot_limit ∧ q.beta = chg.beta ∧
      q.cav_enabled = chg.cav_enabled ∧ q.enabled = chg.enabled ∧
      q.trial = chg.trial ∧
      q.name = chg.name ∧ q.password = chg.password ∧ q.email = chg.email ∧
      q.priv_pass = chg.priv_pass ∧ q.url = chg.url ∧
      q.cav_template = chg.cav_template ∧ q.privacy = chg.privacy) := by
  have hq := citizen_change_written client packet db chg orig q hparse hlook hw
  subst hq
  constructor <;> intro ha <;> simp [modified_record, ha]

/-- C10: whatever the caller's permissions, the record written by
`CitizenChange` always keeps the original `id`, `immigration`, `last_login`,
`last_address` and `total_time`. -/
theorem claimC10_immutable_fields (client : Client) (packet : AWPacket)
    (db : Database) (chg orig q : CitizenQuery)
    (hparse : citizen_from_packet packet = .ok chg)
    (hlook : citizen_by_number db chg.id = some orig)
    (hw : (citizen_change client packet db).2 = some q) :
    q.id = orig.id ∧ q.immigration = orig.immigration ∧
    q.last_login = orig.last_login ∧ q.last_address = orig.last_address ∧
    q.total_time = orig.total_time := by
  have hq := citizen_change_written client packet db chg orig q hparse hlook hw
  subst hq
  simp [modified_record]

/-- The original record for the C7/C10 witnesses: id 1 but a different name
than the submitted one (no collision), nonzero history fields. -/
def c7Orig : CitizenQuery :=
  { id := 1, changed := 0, name := [120], password := [1], email := [2],
    priv_pass := [3], comment := [4], url := [5], immigration := 11,
    expiration := 12, last_login := 13, last_address := 14, total_time := 15,
    bot_limit := 16, beta := 17, cav_enabled := 18, cav_template := 19,
    enabled := 20, privacy := 21, trial := 22 }

def c7Db : Database := [c7Orig]

theorem claimC7_field_policy_witness :
    (citizen_change c5Client fullChangePacket c7Db).2
      = some (modified_record c7Orig fullChangeRecord false)
    ∧ (modified_record c7Orig fullChangeRecord false).comment = c7Orig.comment
    ∧ (modified_record c7Orig fullChangeRecord false).name
      = fullChangeRecord.name := by
  have h := (claimC7_field_policy c5Client fullChangePacket c7Db
    fullChangeRecord c7Orig (modified_record c7Orig fullChangeRecord false)
    rfl rfl rfl).1 rfl
  exact ⟨rfl, h.1, h.2.2.2.2.2.2.2.1⟩

def c10Client : Client :=
  { info := { client_type := some .Citizen,
              entity := some (.player c1Info) },
    admin := true, addr := .v6, conn := 2 }

theorem claimC10_immutable_fields_witness :
    (citizen_change c10Client fullChangePacket c7Db).2
      = some (modified_record c7Orig fullChangeRecord true)
    ∧ (modified_record c7Orig fullChangeRecord true).id = c7Orig.id
    ∧ (modified_record c7Orig fullChangeRecord true).last_address
      = c7Orig.last_address := by
  have h := claimC10_immutable_fields c10Client fullChangePacket c7Db
    fullChangeRecord c7Orig (modified_record c7Orig fullChangeRecord true)
    rfl rfl rfl
  exact ⟨rfl, h.1, h.2.2.2.1⟩

/-! ## Heartbeat ticker (universe/src/system/heartbeat.rs) -/

/-- The per-client `Heartbeat` component (client.rs): the time the heartbeat
was last sent. -/
structure Heartbeat where
  last_time : Nat
deriving DecidableEq, Repr

/-- One `send_heartbeats` visit to one client (heartbeat.rs 22-30): when
thirty seconds have passed since `last_time`, send `AWPacket::new(Heartbeat)`
— a packet with no vars — and set `last_time` to `now`. -/
def heartbeat_tick (hb : Heartbeat) (now : Nat) : Option AWPacket × Heartbeat :=
  let next_heartbeat := hb.last_time + 30
  if next_heartbeat ≤ now then
    (some (AWPacket.new .Heartbeat), { last_time := now })
  else (none, hb)

/-- Run the ticker over a list of tick instants (the loop runs once a second
per spec §4.7), collecting each emitted packet with its instant. -/
def heartbeat_run (hb : Heartbeat) : List Nat → List (Nat × AWPacket) × Heartbeat
  | [] => ([], hb)
  | t :: rest =>
    match heartbeat_tick hb t with
    | (some p, hb2) =>
      let r := heartbeat_run hb2 rest
      ((t, p) :: r.1, r.2)
    | (none, hb2) => heartbeat_run hb2 rest

theorem heartbeat_run_shift (l : List Nat) (b s : Nat) :
    heartbeat_run ⟨b + s⟩ (l.map (· + s))
      = (((heartbeat_run ⟨b⟩ l).1.map (fun pr => (pr.1 + s, pr.2))),
         ⟨(heartbeat_run ⟨b⟩ l).2.last_time + s⟩) := by
  induction l generalizing b with
  | nil => simp [heartbeat_run]
  | cons t rest ih =>
    simp only [List.map_cons, heartbeat_run, heartbeat_tick]
    by_cases h : b + 30 ≤ t
    · rw [if_pos (by omega), if_pos h]
      simp only [List.map_cons]
      rw [ih]
    · rw [if_neg (by omega), if_neg h]
      exact ih b

/-- C9: (a) per tick, a `Heartbeat` packet — empty, no vars — is emitted
exactly when `now ≥ last_time + 30`, and `last_time` is then set to `now`,
otherwise nothing is sent and the state is unchanged; (b) hence a session
with `last_heartbeat_sent = t0`, visited every second, emits exactly one
heartbeat during the 59 seconds after `t0`, at instant `t0 + 30` — the sole
emission in the half-open window `[t0+30, t0+60)` — leaving `last_time =
t0 + 30`. -/
theorem claimC9_heartbeat :
    (∀ (hb : Heartbeat) (now : Nat),
      (hb.last_time + 30 ≤ now →
        heartbeat_tick hb now = (some (AWPacket.new .Heartbeat), ⟨now⟩)) ∧
      (now < hb.last_time + 30 → heartbeat_tick hb now = (none, hb)) ∧
      (AWPacket.new .Heartbeat).vars = [])
    ∧ (∀ t0 : Nat,
      heartbeat_run ⟨t0⟩ ((List.range 59).map (fun i => t0 + 1 + i))
        = ([(t0 + 30, AWPacket.new .Heartbeat)], ⟨t0 + 30⟩)) := by
  constructor
  · intro hb now
    refine ⟨fun h => ?_, fun h => ?_, rfl⟩
    · simp [heartbeat_tick, h]
    · simp [heartbeat_tick]
      omega
  · intro t0
    have hmaps : (List.range 59).map (fun i => t0 + 1 + i)
        = ((List.range 59).map (fun i => 1 + i)).map (· + t0) := by
      rw [List.map_map]
      apply List.map_congr_left
      intro i _
      simp
      omega
    have hbase : heartbeat_run ⟨0⟩ ((List.range 59).map (fun i => 1 + i))
        = ([(30, AWPacket.new .Heartbeat)], ⟨30⟩) := rfl
    have := heartbeat_run_shift ((List.range 59).map (fun i => 1 + i)) 0 t0
    rw [hbase] at this
    simp only [List.map_cons, List.map_nil] at this
    rw [hmaps]
    have h0t : (0 : Nat) + t0 = t0 := by omega
    rw [h0t] at this
    rw [this, Nat.add_comm 30 t0]

theorem claimC9_heartbeat_witness :
    heartbeat_tick ⟨5⟩ 35 = (some (AWPacket.new .Heartbeat), ⟨35⟩)
    ∧ heartbeat_tick ⟨5⟩ 34 = (none, ⟨5⟩)
    ∧ heartbeat_run ⟨5⟩ ((List.range 59).map (fun i => 5 + 1 + i))
      = ([(5 + 30, AWPacket.new .Heartbeat)], ⟨5 + 30⟩) :=
  ⟨(claimC9_heartbeat.1 ⟨5⟩ 35).1 (by decide),
   (claimC9_heartbeat.1 ⟨5⟩ 34).2.1 (by decide),
   claimC9_heartbeat.2 5⟩

/-! ## Purge sweep (universe/src/system/purge.rs) -/

namespace Purge

inductive PlayerState
  | Online
  | Offline
deriving DecidableEq, Repr

/-- Modelled from the spec: `PlayerInfo` (crate::player, outside the analysed
sources), from §3's `Player(build, session_id, citizen_id?, privilege_id?,
username, state)`. -/
structure PlayerInfo where
  build : Int
  session_id : Nat
  citizen_id : Option Nat
  privilege_id : Option Nat
  username : List Nat
  state : PlayerState
deriving DecidableEq, Repr

inductive Entity
  | player (info : PlayerInfo)
  | worldServer (worlds : List Nat)
deriving DecidableEq, Repr

/-- A client as the sweep sees it: its `ClientID`, the `is_dead()` flag, and
its entity. -/
structure Client where
  id : Nat
  dead : Bool
  entity : Option Entity
deriving DecidableEq, Repr

/-- Modelled from the spec: the outward effects of the sweep.  The bodies of
`world_server_hide_all` / `World::send_updates_to_all`,
`PlayerInfo::send_update_to_all` and `update_contacts_of_user` are outside the
analysed sources; they are modelled from the spec (§4.7 purge steps 1-3) as
events: hiding a dead world server's worlds, broadcasting a player update to
every session currently in the manager, and notifying a citizen's contacts. -/
inductive Event
  | worldsHidden (worlds : List Nat)
  | playerUpdate (info : PlayerInfo) (recipients : List Nat)
  | contactsNotified (citizen_id : Nat)
deriving DecidableEq, Repr

/-- The universe server state the sweep touches: the hecs registry rows
`(entity handle, ClientID)` of the `query::<&ClientID>()`, and the client
manager. -/
structure Server where
  registry : List (Nat × Nat)
  clients : List Client
deriving DecidableEq, Repr

/-- Mirrors `client_manager.get(id)`. -/
def getClient (clients : List Client) (id : Nat) : Option Client :=
  clients.find? (fun cl => cl.id == id)

/-- Mirrors `client_manager.remove_client(id)`. -/
def removeClient (clients : List Client) (id : Nat) : List Client :=
  clients.filter (fun cl => cl.id != id)

/-- The `player.state = PlayerState::Offline` mutation through
`info_mut()` on the client with the given id. -/
def setPlayerOffline (clients : List Client) (id : Nat) : List Client :=
  clients.map (fun cl =>
    if cl.id = id then
      { cl with entity :=
          match cl.entity with
          | some (.player p) => some (.player { p with state := .Offline })
          | e => e }
    else cl)

/-- The loop body of `purge_dead_clients` (purge.rs 12-41) over the registry
snapshot: look the client up (the source `expect`s success — `none` models
that panic), and when dead: hide a world server's worlds, flip a player to
Offline, broadcast the update with the manager as it stands, notify contacts,
remove the client and record the handle for despawn. -/
def purgeGo : List (Nat × Nat) → List Client → List Event → List Nat →
    Option (List Client × List Event × List Nat)
  | [], clients, evs, rem => some (clients, evs, rem)
  | (e, id) :: rest, clients, evs, rem =>
    match getClient clients id with
    | none => none
    | some client =>
      if client.dead then
        let evs1 := evs ++ (match client.entity with
          | some (.worldServer ws) => [Event.worldsHidden ws]
          | _ => [])
        let clients1 := setPlayerOffline clients id
        let evs2 := evs1 ++ (match client.entity with
          | some (.player p) =>
            Event.playerUpdate { p with state := .Offline }
              (clients1.map Client.id) ::
            (match p.citizen_id with
             | some cid => [Event.contactsNotified cid]
             | none => [])
          | _ => [])
        purgeGo rest (removeClient clients1 id) evs2 (rem ++ [e])
      else purgeGo rest clients evs rem

/-- Mirrors `purge_dead_clients`: run the sweep, then despawn the collected handles
from the registry. -/
def purge_dead_clients (s : Server) : Option (Server × List Event) :=
  match purgeGo s.registry s.clients [] [] with
  | none => none
  | some (clients', evs', rem') =>
    some ({ registry := s.registry.filter (fun pr => !rem'.contains pr.1),
            clients := clients' }, evs')

theorem setPlayerOffline_ids (clients : List Client) (id : Nat) :
    (setPlayerOffline clients id).map Client.id = clients.map Client.id := by
  induction clients with
  | nil => rfl
  | cons cl rest ih =>
    simp only [setPlayerOffline, List.map_cons] at *
    by_cases h : cl.id = id
    · simp only [if_pos h]
      rw [ih]
    · simp only [if_neg h]
      rw [ih]

theorem mem_setPlayerOffline_of_ne (clients : List Client) (id : Nat)
    (cl : Client) (hmem : cl ∈ clients) (hne : cl.id ≠ id) :
    cl ∈ setPlayerOffline clients id := by
  have : cl = (fun cl : Client =>
      if cl.id = id then
        { cl with entity :=
            match cl.entity with
            | some (.player p) => some (.player { p with state := .Offline })
            | e => e }
      else cl) cl := by
    simp [if_neg hne]
  rw [setPlayerOffline]
  exact this ▸ List.mem_map_of_mem _ hmem

theorem mem_removeClient_of_ne (clients : List Client) (id : Nat)
    (cl : Client) (hmem : cl ∈ clients) (hne : cl.id ≠ id) :
    cl ∈ removeClient clients id := by
  simp only [removeClient, List.mem_filter, hmem, true_and, bne_iff_ne, ne_eq]
  simpa using hne

theorem getClient_eq_of_nodup (clients : List Client) (cl : Client)
    (hmem : cl ∈ clients) (hnodup : (clients.map Client.id).Nodup) :
    getClient clients cl.id = some cl := by
  induction clients with
  | nil => simp at hmem
  | cons h rest ih =>
    simp only [List.map_cons, List.nodup_cons] at hnodup
    rcases List.mem_cons.mp hmem with rfl | hmem2
    · simp [getClient, List.find?_cons]
    · by_cases heq : h.id = cl.id
      · exfalso
        exact hnodup.1 (heq ▸ List.mem_map_of_mem Client.id hmem2)
      · have hb : (h.id == cl.id) = false := by simpa using heq
        simp only [getClient, List.find?_cons, hb]
        exact ih hmem2 hnodup.2

theorem removeClient_ids_ne (clients : List Client) (id : Nat) :
    ∀ x ∈ (removeClient clients id).map Client.id, x ≠ id := by
  intro x hx
  obtain ⟨cl, hcl, rfl⟩ := List.mem_map.mp hx
  have := (List.mem_filter.mp hcl).2
  simpa using this

theorem clientsAfter_ids_subset (clients : List Client) (id : Nat) :
    ∀ x ∈ (removeClient (setPlayerOffline clients id) id).map Client.id,
      x ∈ clients.map Client.id := by
  intro x hx
  obtain ⟨cl, hcl, rfl⟩ := List.mem_map.mp hx
  have h1 : cl ∈ setPlayerOffline clients id := List.mem_of_mem_filter hcl
  have h2 : cl.id ∈ (setPlayerOffline clients id).map Client.id :=
    List.mem_map_of_mem _ h1
  rwa [setPlayerOffline_ids] at h2

theorem clientsAfter_nodup (clients : List Client) (id : Nat)
    (h : (clients.map Client.id).Nodup) :
    ((removeClient (setPlayerOffline clients id) id).map Client.id).Nodup := by
  have hsub : List.Sublist
      ((removeClient (setPlayerOffline clients id) id).map Client.id)
      ((setPlayerOffline clients id).map Client.id) :=
    (List.filter_sublist _).map _
  rw [setPlayerOffline_ids] at hsub
  exact List.Nodup.sublist hsub h

theorem client_unique (clients : List Client) (cl cl' : Client)
    (h1 : cl ∈ clients) (h2 : cl' ∈ clients) (hid : cl.id = cl'.id)
    (hnodup : (clients.map Client.id).Nodup) : cl = cl' := by
  have g1 := getClient_eq_of_nodup clients cl h1 hnodup
  have g2 := getClient_eq_of_nodup clients cl' h2 hnodup
  rw [hid] at g1
  rw [g1] at g2
  exact Option.some.inj g2

theorem purgeGo_spec : ∀ (reg : List (Nat × Nat)) (clients : List Client)
    (evs : List Event) (rem : List Nat),
    (∀ pr ∈ reg, ∃ cl ∈ clients, cl.id = pr.2) →
    (reg.map Prod.snd).Nodup →
    (clients.map Client.id).Nodup →
    ∃ clients' evs' rem',
      purgeGo reg clients evs rem = some (clients', evs', rem')
      ∧ (∀ cl' ∈ clients', cl'.id ∈ clients.map Client.id)
      ∧ (∀ x ∈ evs, x ∈ evs')
      ∧ (∀ x ∈ rem, x ∈ rem')
      ∧ (∀ e cid, (e, cid) ∈ reg → ∀ cl ∈ clients, cl.id = cid →
          cl.dead = true →
          (∀ cl' ∈ clients', cl'.id ≠ cid)
          ∧ e ∈ rem'
          ∧ (∀ p, cl.entity = some (.player p) →
              ∃ recips,
                Event.playerUpdate { p with state := .Offline } recips ∈ evs'
                ∧ (∀ cl' ∈ clients', cl'.id ∈ recips)
                ∧ ∀ cid2, p.citizen_id = some cid2 →
                    Event.contactsNotified cid2 ∈ evs')) := by
  intro reg
  induction reg with
  | nil =>
    intro clients evs rem hcover hnodupR hnodupC
    refine ⟨clients, evs, rem, rfl, ?_, fun x hx => hx, fun x hx => hx, ?_⟩
    · intro cl' h
      exact List.mem_map_of_mem _ h
    · intro e cid h
      simp at h
  | cons hd tl ih =>
    intro clients evs rem hcover hnodupR hnodupC
    obtain ⟨e0, id0⟩ := hd
    obtain ⟨cl0, hcl0mem, hcl0id⟩ := hcover (e0, id0) (List.mem_cons_self _ _)
    have hcl0id' : cl0.id = id0 := hcl0id
    have hget : getClient clients id0 = some cl0 := by
      rw [← hcl0id']
      exact getClient_eq_of_nodup clients cl0 hcl0mem hnodupC
    have hnodupR' : (tl.map Prod.snd).Nodup := by
      simp only [List.map_cons, List.nodup_cons] at hnodupR
      exact hnodupR.2
    have hid0notin : id0 ∉ tl.map Prod.snd := by
      simp only [List.map_cons, List.nodup_cons] at hnodupR
      exact hnodupR.1
    by_cases hdead : cl0.dead = true
    · -- the head's client is dead: it is processed and removed
      have hcoverN : ∀ pr ∈ tl,
          ∃ cl ∈ removeClient (setPlayerOffline clients id0) id0,
            cl.id = pr.2 := by
        intro pr hpr
        obtain ⟨cl, hclm, hclid⟩ := hcover pr (List.mem_cons_of_mem _ hpr)
        have hne : cl.id ≠ id0 := by
          intro hEq
          have hmemsnd : pr.2 ∈ tl.map Prod.snd :=
            List.mem_map_of_mem Prod.snd hpr
          rw [← hclid, hEq] at hmemsnd
          exact hid0notin hmemsnd
        exact ⟨cl, mem_removeClient_of_ne _ _ _
          (mem_setPlayerOffline_of_ne _ _ _ hclm hne) hne, hclid⟩
      obtain ⟨clients', evs', rem', hrun, hids, hevm, hremm, hbig⟩ :=
        ih (removeClient (setPlayerOffline clients id0) id0)
          ((evs ++ (match cl0.entity with
            | some (.worldServer ws) => [Event.worldsHidden ws]
            | _ => [])) ++ (match cl0.entity with
            | some (.player p) =>
              Event.playerUpdate { p with state := .Offline }
                ((setPlayerOffline clients id0).map Client.id) ::
              (match p.citizen_id with
               | some cid => [Event.contactsNotified cid]
               | none => [])
            | _ => []))
          (rem ++ [e0]) hcoverN hnodupR' (clientsAfter_nodup clients id0 hnodupC)
      refine ⟨clients', evs', rem', ?_, ?_, ?_, ?_, ?_⟩
      · simp only [purgeGo, hget]
        rw [if_pos hdead]
        exact hrun
      · intro cl' h
        exact clientsAfter_ids_subset clients id0 cl'.id (hids cl' h)
      · intro x hx
        exact hevm x (List.mem_append_left _ (List.mem_append_left _ hx))
      · intro x hx
        exact hremm x (List.mem_append_left _ hx)
      · intro e cid hmem cl hclm hclid hcldead
        rcases List.mem_cons.mp hmem with hEq | htail
        · -- the entry being examined is the head itself
          obtain ⟨he, hcid⟩ : e = e0 ∧ cid = id0 := by
            simpa [Prod.ext_iff] using hEq
          subst he
          subst hcid
          have hcl0 : cl = cl0 :=
            client_unique clients cl cl0 hclm hcl0mem (hclid.trans hcl0id'.symm)
              hnodupC
          subst hcl0
          refine ⟨?_, ?_, ?_⟩
          · intro cl' h
            have := hids cl' h
            exact removeClient_ids_ne _ _ cl'.id this
          · exact hremm e (List.mem_append_right _ (List.mem_singleton.mpr rfl))
          · intro p hent
            refine ⟨(setPlayerOffline clients cid).map Client.id, ?_, ?_, ?_⟩
            · apply hevm
              apply List.mem_append_right
              rw [hent]
              exact List.mem_cons_self _ _
            · intro cl' h
              have h1 := hids cl' h
              obtain ⟨w, hw, hwid⟩ := List.mem_map.mp h1
              have hw1 : w ∈ setPlayerOffline clients cid :=
                List.mem_of_mem_filter hw
              exact hwid ▸ List.mem_map_of_mem _ hw1
            · intro cid2 hcid2
              apply hevm
              apply List.mem_append_right
              rw [hent]
              apply List.mem_cons_of_mem
              rw [hcid2]
              exact List.mem_singleton.mpr rfl
        · -- the entry is further down the snapshot: the client survives this
          -- step untouched and the inductive hypothesis applies
          have hcidne : cl.id ≠ id0 := by
            intro hEq
            have hmemsnd : cid ∈ tl.map Prod.snd :=
              List.mem_map_of_mem Prod.snd htail
            rw [← hclid, hEq] at hmemsnd
            exact hid0notin hmemsnd
          have hclmN : cl ∈ removeClient (setPlayerOffline clients id0) id0 :=
            mem_removeClient_of_ne _ _ _
              (mem_setPlayerOffline_of_ne _ _ _ hclm hcidne) hcidne
          exact hbig e cid htail cl hclmN hclid hcldead
    · -- the head's client is alive: nothing happens to it
      have hcoverN : ∀ pr ∈ tl, ∃ cl ∈ clients, cl.id = pr.2 :=
        fun pr hpr => hcover pr (List.mem_cons_of_mem _ hpr)
      obtain ⟨clients', evs', rem', hrun, hids, hevm, hremm, hbig⟩ :=
        ih clients evs rem hcoverN hnodupR' hnodupC
      refine ⟨clients', evs', rem', ?_, hids, hevm, hremm, ?_⟩
      · simp only [purgeGo, hget]
        rw [if_neg hdead]
        exact hrun
      · intro e cid hmem cl hclm hclid hcldead
        rcases List.mem_cons.mp hmem with hEq | htail
        · exfalso
          obtain ⟨he, hcid⟩ : e = e0 ∧ cid = id0 := by
            simpa [Prod.ext_iff] using hEq
          subst hcid
          have hcl0 : cl = cl0 :=
            client_unique clients cl cl0 hclm hcl0mem (hclid.trans hcl0id'.symm)
              hnodupC
          subst hcl0
          exact hdead hcldead
        · exact hbig e cid htail cl hclm hclid hcldead

/-- C8: for every client whose connection is marked dead, one run of the
purge sweep removes it from the client manager and from the entity
registry; if the dead client is a Player, a player update carrying state
`Offline` is broadcast — its recipients include every session still present
after the sweep — and if that Player has a citizen id, that citizen's
contacts are notified.  (Well-formedness hypotheses mirror the hecs/manager
invariants the source `expect`s: ids are unique and every registry row has a
client.) -/
theorem claimC8_purge (s : Server) (c : Client)
    (hmem : c ∈ s.clients)
    (hdead : c.dead = true)
    (hreg : ∃ e, (e, c.id) ∈ s.registry)
    (hnodupR : (s.registry.map Prod.snd).Nodup)
    (hnodupC : (s.clients.map Client.id).Nodup)
    (hcover : ∀ pr ∈ s.registry, ∃ cl ∈ s.clients, cl.id = pr.2) :
    ∃ s' evs, purge_dead_clients s = some (s', evs)
      ∧ (∀ cl' ∈ s'.clients, cl'.id ≠ c.id)
      ∧ (∀ pr ∈ s'.registry, pr.2 ≠ c.id)
      ∧ (∀ p, c.entity = some (.player p) →
          ∃ recips,
            Event.playerUpdate { p with state := .Offline } recips ∈ evs
            ∧ (∀ cl' ∈ s'.clients, cl'.id ∈ recips)
            ∧ ∀ cid, p.citizen_id = some cid →
                Event.contactsNotified cid ∈ evs) := by
  obtain ⟨e, he⟩ := hreg
  obtain ⟨clients', evs', rem', hrun, hids, hevm, hremm, hbig⟩ :=
    purgeGo_spec s.registry s.clients [] [] hcover hnodupR hnodupC
  obtain ⟨hnc, herem, hplayer⟩ := hbig e c.id he c hmem rfl hdead
  refine ⟨{ registry := s.registry.filter (fun pr => !rem'.contains pr.1),
            clients := clients' }, evs', ?_, hnc, ?_, ?_⟩
  · simp [purge_dead_clients, hrun]
  · intro pr hpr hsnd
    have hprmem : pr ∈ s.registry := List.mem_of_mem_filter hpr
    have hpr_eq : pr = (e, c.id) := by
      apply List.inj_on_of_nodup_map hnodupR hprmem he
      simpa using hsnd
    have hcond := (List.mem_filter.mp hpr).2
    rw [hpr_eq] at hcond
    simp only [Bool.not_eq_true'] at hcond
    have hcontains : rem'.contains e = true := List.elem_eq_true_of_mem herem
    rw [hcontains] at hcond
    cases hcond
  · intro p hent
    obtain ⟨recips, hin, hrecsub, hcont⟩ := hplayer p hent
    exact ⟨recips, hin, hrecsub, hcont⟩

def c8PInfo : PlayerInfo :=
  { build := 0, session_id := 3, citizen_id := some 7, privilege_id := none,
    username := [97], state := .Online }

def c8Dead : Client := { id := 1, dead := true, entity := some (.player c8PInfo) }

def c8Alive : Client :=
  { id := 2, dead := false,
    entity := some (.player { c8PInfo with session_id := 4, citizen_id := none }) }

def c8Server : Server :=
  { registry := [(10, 1), (11, 2)], clients := [c8Dead, c8Alive] }

theorem claimC8_purge_witness :
    c8Dead ∈ c8Server.clients ∧ c8Dead.dead = true ∧
    (∃ s' evs, purge_dead_clients c8Server = some (s', evs)
      ∧ (∀ cl' ∈ s'.clients, cl'.id ≠ c8Dead.id)
      ∧ (∀ pr ∈ s'.registry, pr.2 ≠ c8Dead.id)
      ∧ (∀ p, c8Dead.entity = some (.player p) →
          ∃ recips,
            Event.playerUpdate { p with state := .Offline } recips ∈ evs
            ∧ (∀ cl' ∈ s'.clients, cl'.id ∈ recips)
            ∧ ∀ cid, p.citizen_id = some cid →
                Event.contactsNotified cid ∈ evs)) :=
  ⟨by decide, by decide,
   claimC8_purge c8Server c8Dead (by decide) (by decide) ⟨10, by decide⟩
     (by decide) (by decide) (by decide)⟩

end Purge

/-! ## User list (user_handler.rs 189-282) -/

/-- Mirrors `ip_to_num` (user_handler.rs 189-198): iterate the IPv4 octets in
reverse, shifting left by 8 and or-ing each octet in (u32 arithmetic);
non-IPv4 addresses yield 0. -/
def ip_to_num : IpAddr → Nat
  | .v4 a b c d =>
    List.foldl (fun res octet => res * 256 % 4294967296 ||| octet) 0 [d, c, b, a]
  | .v6 => 0

/-- Mirrors `i32::saturating_sub(3)` for the throttle check. -/
def i32SatSub3 (now : Int) : Int :=
  if now - 3 < -2147483648 then -2147483648 else now - 3

/-- Modelled from the spec: `AWPacketGroup` (the aw_core packet-group codec is
outside the analysed sources), from §3/§4.3 — an ordered list of packets with
a byte budget of 0x1400 = 5120; `push` appends while the running byte count
plus the packet's serialized length fits, otherwise it hands the packet back
to the caller. -/
structure AWPacketGroup where
  packets : List AWPacket

def AWPacketGroup.new : AWPacketGroup := { packets := [] }

def AWPacketGroup.size (g : AWPacketGroup) : Nat :=
  (g.packets.map AWPacket.serialize_len).sum

def AWPacketGroup.push (g : AWPacketGroup) (p : AWPacket) :
    Except AWPacket AWPacketGroup :=
  if g.size + p.serialize_len ≤ 5120 then .ok { packets := g.packets ++ [p] }
  else .error p

/-- Mirrors `group.push(x).ok()`: keep the group unchanged when the push fails. -/
def AWPacketGroup.pushOk (g : AWPacketGroup) (p : AWPacket) : AWPacketGroup :=
  match g.push p with
  | .ok g2 => g2
  | .error _ => g

/-- The per-player `UserList` packet of the loop body (user_handler.rs
221-253).  NOTE the source's loop variable `client` shadows the requesting
caller, so the admin test and address are the **listed** client's. -/
def userListPacket (listed : Client) (info : PlayerInfo) : AWPacket :=
  addVars (AWPacket.new .UserList)
    ([.str VarID.UserListName info.username,
      .int VarID.UserListID (info.session_id : Int),
      .uint VarID.UserListCitizenID (info.citizen_id.getD 0),
      .uint VarID.UserListPrivilegeID (info.privilege_id.getD 0)] ++
     (if listed.admin then [.uint VarID.UserListAddress (ip_to_num listed.addr)]
      else []) ++
     [.byte VarID.UserListState 1,
      .str VarID.UserListWorldName [78, 79, 32, 87, 79, 82, 76, 68]])

/-- The client loop of `user_list` (user_handler.rs 218-268), threading the
current group and the `send_group` calls already made.  On overflow the
current group is sent to the **listed** client's connection (the shadowed
`client`), then a `UserListResult` with `UserListMore = 1` and the returned
packet open the next group. -/
def userListLoop (now : Int) : List Client → AWPacketGroup →
    List (Nat × AWPacketGroup) → AWPacketGroup × List (Nat × AWPacketGroup)
  | [], group, sends => (group, sends)
  | listed :: rest, group, sends =>
    match listed.info.entity with
    | some (.player info) =>
      let p := userListPacket listed info
      match group.push p with
      | .ok g2 => userListLoop now rest g2 sends
      | .error pret =>
        let sends2 := sends ++ [(listed.conn, group)]
        let more := (AWPacket.new .UserListResult).add_var
          (.byte VarID.UserListMore 1) |>.add_var
          (.int VarID.UserList3DayUnknown now)
        let g3 := (AWPacketGroup.new.pushOk more).pushOk pret
        userListLoop now rest g3 sends2
    | _ => userListLoop now rest group sends

/-- Mirrors `user_list` (user_handler.rs 200-282): throttle check, the loop over the
registry, then the final `UserListResult` with `UserListMore = 0`; returns
the `send_group` calls as `(connection, group)` pairs in order. -/
def user_list (client : Client) (packet : AWPacket) (clients : List Client)
    (now : Int) : List (Nat × AWPacketGroup) :=
  let time_val := (packet.get_int VarID.UserList3DayUnknown).getD 0
  if i32SatSub3 now < time_val then []
  else
    let (group, sends) := userListLoop now clients AWPacketGroup.new []
    let p := (AWPacket.new .UserListResult).add_var
      (.byte VarID.UserListMore 0) |>.add_var
      (.int VarID.UserList3DayUnknown now)
    match group.push p with
    | .ok g => sends ++ [(client.conn, g)]
    | .error p2 => sends ++ [(client.conn, group),
        (client.conn, AWPacketGroup.new.pushOk p2)]

def c2Requester : Client :=
  { info := { client_type := some .Citizen, entity := some (.player c1Info) },
    admin := true, addr := .v4 9 9 9 9, conn := 100 }

def c2NonAdminRequester : Client :=
  { info := { client_type := some .Citizen, entity := some (.player c1Info) },
    admin := false, addr := .v4 9 9 9 9, conn := 101 }

def c2ListedInfo : PlayerInfo :=
  { build := 0, session_id := 7, citizen_id := some 3, privilege_id := none,
    username := [97, 98] }

def c2ListedPlain : Client :=
  { info := { client_type := some .Citizen,
              entity := some (.player c2ListedInfo) },
    admin := false, addr := .v4 1 2 3 4, conn := 200 }

def c2ListedAdmin : Client :=
  { c2ListedPlain with admin := true, conn := 201 }

def c2Pkt : AWPacket :=
  { vars := [.int VarID.UserList3DayUnknown 0], opcode := .UserList,
    header_0 := 0, header_1 := 0 }

/-- C2 failing input: the loop variable shadows the requesting caller, so the
admin check is made on the **listed** client.  (i) An admin requester listing
one non-admin player receives a `UserList` packet with **no**
`UserListAddress` var, although the claim requires one; (ii) a non-admin
requester listing one admin player receives a packet **with** the var
(carrying the listed player's octets packed little-endian), although the
claim requires none. -/
theorem claimC2_failing_eval :
    c2Requester.admin = true
    ∧ (∃ g, user_list c2Requester c2Pkt [c2ListedPlain] 1000
        = [(c2Requester.conn, g)]
        ∧ ∀ p ∈ g.packets, p.get_uint VarID.UserListAddress = none)
    ∧ c2NonAdminRequester.admin = false
    ∧ (∃ g, user_list c2NonAdminRequester c2Pkt [c2ListedAdmin] 1000
        = [(c2NonAdminRequester.conn, g)]
        ∧ ∃ p ∈ g.packets, p.get_uint VarID.UserListAddress
            = some (1 + 256 * 2 + 65536 * 3 + 16777216 * 4))
    ∧ ip_to_num (.v4 1 2 3 4) = 1 + 256 * 2 + 65536 * 3 + 16777216 * 4 := by
  refine ⟨rfl, ⟨_, rfl, by decide⟩, rfl, ⟨_, rfl, ?_⟩, by decide⟩
  exact ⟨userListPacket c2ListedAdmin c2ListedInfo,
    by simp [AWPacketGroup.new], by decide⟩

/-! ## Login (user_handler.rs 18-183) -/

/-- Modelled from the spec: the session-id allocator of the client manager
(outside the analysed sources), from §3 — "Session-id is a process-unique,
monotonically increasing 32-bit integer". -/
structure ClientManager where
  next_session : Nat
deriving DecidableEq, Repr

def ClientManager.create_session_id (m : ClientManager) : Nat × ClientManager :=
  (m.next_session, { next_session := m.next_session + 1 })

/-- Modelled from the spec: `ClientManager::check_tourist` (outside the
analysed sources), from §4.5 step 2 — "format rules: quoted, length bounds, not
impersonating a citizen name". -/
def check_tourist (db : Database) (username : List Nat) :
    Except ReasonCode Unit :=
  if 3 ≤ username.length ∧ username.head? = some 34 ∧
      username.getLast? = some 34 ∧
      (citizen_by_name db ((username.drop 1).dropLast)).isNone then
    .ok ()
  else .error .NoSuchCitizen

/-- Modelled from the spec: `ClientManager::check_citizen` (outside the
analysed sources), from §4.5 ordering — "a session may successfully log in at most
once; a second `Login` on the same session is a protocol violation — respond
with `ReasonCode::Unauthorized`" — so an already-classified session is
rejected first; then §4.5 step 3: the credential comparison is the
collaborator's responsibility and the core trusts its reason code (wrong or
missing credentials ⇒ `NoSuchCitizen`, per scenario S2; the privilege-id
cross-check is elided, no claim depends on it). -/
def check_citizen (info : ClientInfo) (db : Database) (username : List Nat)
    (password : Option (List Nat)) : Except ReasonCode CitizenQuery :=
  if info.client_type.isSome then .error .Unauthorized
  else
    match citizen_by_name db username with
    | none => .error .NoSuchCitizen
    | some cit =>
      match password with
      | none => .error .NoSuchCitizen
      | some pw =>
        if pw = cit.password ∧ pw ≠ [] then .ok cit
        else .error .NoSuchCitizen

/-- Mirrors `validate_human_login` (user_handler.rs 157-183): tourists are detected
by a leading quote (byte 34); otherwise the citizen path. -/
def validate_human_login (info : ClientInfo) (db : Database)
    (username : Option (List Nat)) (password : Option (List Nat)) :
    Except ReasonCode (Option CitizenQuery) :=
  match username with
  | none => .error .NoSuchCitizen
  | some u =>
    if u.head? = some 34 then
      match check_tourist db u with
      | .ok _ => .ok none
      | .error rc => .error rc
    else
      match check_citizen info db u password with
      | .ok cit => .ok (some cit)
      | .error rc => .error rc

/-- Mirrors `validate_login` (user_handler.rs 138-151).  `none` models the `todo!()`
panic of the Bot arm. -/
def validate_login (info : ClientInfo) (db : Database)
    (user_type : Option ClientType) (username password : Option (List Nat)) :
    Option (Except ReasonCode (Option CitizenQuery)) :=
  match user_type with
  | some .Bot => none
  | some .UnspecifiedHuman =>
    some (validate_human_login info db username password)
  | _ => some (.error .NoSuchCitizen)

/-- Mirrors `login` (user_handler.rs 46-131): parse credentials (a missing `UserType`
var hits the `unwrap` — `none` models that panic, as it does the `todo!()`
and `panic!()` arms of the promotion match), validate, promote on success,
then always reply with the (possibly old) player name and session id, the
universe license, and the reason code.  Returns the new client info, the new
manager state, and the response packet. -/
def login (clientInfo : ClientInfo) (packet : AWPacket) (mgr : ClientManager)
    (lg : Int → List Nat) (db : Database) :
    Option (ClientInfo × ClientManager × AWPacket) :=
  let browser_build := packet.get_int VarID.BrowserBuild
  match packet.get_int VarID.UserType with
  | none => none
  | some ut =>
    let user_type := ClientType.from_i32 ut
    let username := packet.get_string VarID.LoginUsername
    let password := packet.get_string VarID.Password
    let privilege_id := packet.get_uint VarID.PrivilegeUserID
    match validate_login clientInfo db user_type username password with
    | none => none
    | some vres =>
      let step : Option (ClientInfo × ClientManager × ReasonCode ×
          List AWPacketVar) :=
        match vres with
        | .error reason => some (clientInfo, mgr, reason, [])
        | .ok user =>
          match user, user_type with
          | some citizen, some .UnspecifiedHuman =>
            let (sid, mgr2) := mgr.create_session_id
            some ({ client_type := some .Citizen,
                    entity := some (.player
                      { build := browser_build.getD 0, session_id := sid,
                        citizen_id := some citizen.id,
                        privilege_id := privilege_id,
                        username := citizen.name }) }, mgr2, .Success,
                  [.uint VarID.BetaUser citizen.beta,
                   .uint VarID.TrialUser citizen.trial,
                   .uint VarID.CitizenNumber citizen.id,
                   .uint VarID.CitizenPrivacy citizen.privacy,
                   .uint VarID.CAVEnabled citizen.cav_enabled])
          | none, some .UnspecifiedHuman =>
            let (sid, mgr2) := mgr.create_session_id
            some ({ client_type := some .Tourist,
                    entity := some (.player
                      { build := browser_build.getD 0, session_id := sid,
                        citizen_id := none, privilege_id := none,
                        username := username.getD [] }) }, mgr2, .Success, [])
          | _, _ => none
      match step with
      | none => none
      | some (info2, mgr2, rc, vars0) =>
        let vars1 := vars0 ++ (match info2.entity with
          | some (.player pinfo) =>
            [.str VarID.CitizenName pinfo.username,
             .int VarID.SessionID (pinfo.session_id : Int)]
          | _ => [])
        some (info2, mgr2,
          addVars (AWPacket.new .Login)
            (vars1 ++ [.data VarID.UniverseLicense (lg (browser_build.getD 0)),
                       .int VarID.ReasonCode rc.toI32]))

theorem intSel_reason_entityblock (e : Option Entity) :
    ∀ w ∈ (match e with
      | some (.player pinfo) =>
        [AWPacketVar.str VarID.CitizenName pinfo.username,
         AWPacketVar.int VarID.SessionID (pinfo.session_id : Int)]
      | _ => ([] : List AWPacketVar)),
      intSel VarID.ReasonCode w = none := by
  intro w hw
  match e with
  | none => simp at hw
  | some (.worldServer ws) => simp at hw
  | some (.player p) =>
    simp only [List.mem_cons, List.not_mem_nil, or_false] at hw
    rcases hw with rfl | rfl
    · rfl
    · simp [intSel, VarID.SessionID, VarID.ReasonCode]

theorem get_int_login_reason (vars : List AWPacketVar) (lic : List Nat)
    (v : Int) (h : ∀ w ∈ vars, intSel VarID.ReasonCode w = none) :
    (addVars (AWPacket.new .Login)
      (vars ++ [.data VarID.UniverseLicense lic, .int VarID.ReasonCode v])
      ).get_int VarID.ReasonCode = some v := by
  simp only [AWPacket.get_int, addVars_vars, AWPacket.new, List.nil_append,
    getIntAux_eq_firstPayload]
  have hsplit : vars ++ [AWPacketVar.data VarID.UniverseLicense lic,
      AWPacketVar.int VarID.ReasonCode v]
      = (vars ++ [AWPacketVar.data VarID.UniverseLicense lic]) ++
        [AWPacketVar.int VarID.ReasonCode v] := by
    simp
  rw [hsplit]
  rw [firstPayload_append]
  · simp [firstPayload, intSel]
  · intro w hw
    rcases List.mem_append.mp hw with hw1 | hw2
    · exact h w hw1
    · rw [List.mem_singleton.mp hw2]
      rfl

theorem login_error_shape (info : ClientInfo) (packet : AWPacket)
    (mgr : ClientManager) (lg : Int → List Nat) (db : Database) (ut : Int)
    (rc0 : ReasonCode)
    (hut : packet.get_int VarID.UserType = some ut)
    (hv : validate_login info db (ClientType.from_i32 ut)
        (packet.get_string VarID.LoginUsername)
        (packet.get_string VarID.Password) = some (.error rc0)) :
    ∃ resp, login info packet mgr lg db = some (info, mgr, resp)
      ∧ resp.get_int VarID.ReasonCode = some rc0.toI32 := by
  simp only [login, hut, hv]
  refine ⟨_, rfl, ?_⟩
  have := get_int_login_reason
    ((match info.entity with
      | some (.player pinfo) =>
        [AWPacketVar.str VarID.CitizenName pinfo.username,
         AWPacketVar.int VarID.SessionID (pinfo.session_id : Int)]
      | _ => ([] : List AWPacketVar)))
    (lg ((packet.get_int VarID.BrowserBuild).getD 0)) rc0.toI32
    (intSel_reason_entityblock info.entity)
  simpa using this

/-- C3 amended: on a session that has already logged in (its `client_type` is
set), a second `Login` that names a citizen — `UserType` = human and an
unquoted username — is answered `Unauthorized` with the prior identity and
session id intact and no new session id allocated; a second `Login` whose
`UserType` is missing from the recognised set (or not human) or that carries
no username at all is likewise left intact but answered `NoSuchCitizen`, not
`Unauthorized`.  (A `UserType` = Bot login hits the source's `todo!()`.) -/
theorem claimC3_amended (info : ClientInfo) (packet : AWPacket)
    (mgr : ClientManager) (lg : Int → List Nat) (db : Database)
    (ct : ClientType) (ut : Int)
    (hlogged : info.client_type = some ct)
    (hut : packet.get_int VarID.UserType = some ut) :
    (∀ u, ClientType.from_i32 ut = some .UnspecifiedHuman →
      packet.get_string VarID.LoginUsername = some u → u.head? ≠ some 34 →
      ∃ resp, login info packet mgr lg db = some (info, mgr, resp)
        ∧ resp.get_int VarID.ReasonCode = some ReasonCode.Unauthorized.toI32)
    ∧ (ClientType.from_i32 ut ≠ some .Bot →
      (ClientType.from_i32 ut ≠ some .UnspecifiedHuman ∨
        packet.get_string VarID.LoginUsername = none) →
      ∃ resp, login info packet mgr lg db = some (info, mgr, resp)
        ∧ resp.get_int VarID.ReasonCode
          = some ReasonCode.NoSuchCitizen.toI32) := by
  constructor
  · intro u hhuman husr h34
    apply login_error_shape info packet mgr lg db ut .Unauthorized hut
    rw [hhuman]
    simp only [validate_login, validate_human_login, husr]
    rw [if_neg h34]
    simp [check_citizen, hlogged]
  · intro hnotbot hcase
    apply login_error_shape info packet mgr lg db ut .NoSuchCitizen hut
    rcases hcase with hnothuman | husernone
    · cases hft : ClientType.from_i32 ut with
      | none => simp [validate_login]
      | some ct2 =>
        cases ct2
        · simp [validate_login]
        · exact absurd hft hnothuman
        · simp [validate_login]
        · simp [validate_login]
        · exact absurd hft hnotbot
    · cases hft : ClientType.from_i32 ut with
      | none => simp [validate_login]
      | some ct2 =>
        cases ct2
        · simp [validate_login]
        · simp [validate_login, validate_human_login, husernone]
        · simp [validate_login]
        · simp [validate_login]
        · exact absurd hft hnotbot

def c3PriorPlayer : PlayerInfo :=
  { build := 0, session_id := 1, citizen_id := some 1, privilege_id := none,
    username := [98] }

def c3Prior : ClientInfo :=
  { client_type := some .Citizen, entity := some (.player c3PriorPlayer) }

def c3BadPkt : AWPacket :=
  { vars := [.int VarID.UserType 1], opcode := .Login,
    header_0 := 0, header_1 := 0 }

/-- C3 counterexample: a second `Login` carrying `UserType` = human but no
username is answered with `NoSuchCitizen`, not `Unauthorized` (the identity
does stay intact): the handler's validation falls into the missing-username
error before any second-login rejection can fire. -/
theorem claimC3_counterexample :
    ∃ resp, login c3Prior c3BadPkt ⟨10⟩ (fun _ => []) ([] : Database)
        = some (c3Prior, ⟨10⟩, resp)
      ∧ resp.get_int VarID.ReasonCode = some ReasonCode.NoSuchCitizen.toI32
      ∧ ReasonCode.NoSuchCitizen.toI32 ≠ ReasonCode.Unauthorized.toI32 :=
  ⟨_, rfl, by decide, by decide⟩

def c3CitPkt : AWPacket :=
  { vars := [.int VarID.UserType 1, .str VarID.LoginUsername [98],
             .str VarID.Password [112]],
    opcode := .Login, header_0 := 0, header_1 := 0 }

theorem claimC3_amended_witness :
    ∃ resp, login c3Prior c3CitPkt ⟨10⟩ (fun _ => []) ([] : Database)
        = some (c3Prior, ⟨10⟩, resp)
      ∧ resp.get_int VarID.ReasonCode = some ReasonCode.Unauthorized.toI32 :=
  (claimC3_amended c3Prior c3CitPkt ⟨10⟩ (fun _ => []) [] .Citizen 1
    rfl rfl).1 [98] rfl rfl (by decide)

end AW
